import Mathlib

/-!
Shallow embedding of the Alert and Task Lifecycle Orchestration Engine of
`src/workflows/worker.py` (plus the reopen role gate of `src/api/alerts.py`).

The relational store is modelled by `AML.DB`: a single alert row under
consideration (`alert : Option Alert`, its id in `alertId`), its append-only
status history (newest first), the `tasks` table as a list of rows, the task
status history, the `users` table, and a logical clock `now` standing for
`NOW()`.  Each Temporal activity becomes a pure function `DB → ActResult × DB`
mirroring, statement by statement, the SQL and control flow of the Python
activity of the same name.  JSON `metadata` payloads of history rows and the
`workflow_status` column are not needed by any property below and are omitted.
-/

namespace AML

/-- One row of the `alerts` table (the lifecycle-relevant columns). -/
structure Alert where
  status : String
  assigned_to : Option String := none
  assigned_by : Option String := none
  assigned_at : Option Nat := none
  escalated_to : Option String := none
  escalated_by : Option String := none
  escalated_at : Option Nat := none
  escalation_reason : Option String := none
  resolution_type : Option String := none
  resolution_notes : Option String := none
  resolved_by : Option String := none
  resolved_at : Option Nat := none
  severity : Option String := none
  scenario : Option String := none
  customer_id : Option String := none
  customer_name : Option String := none
deriving DecidableEq

/-- One append-only row of `alert_status_history`. -/
structure AlertHistRow where
  previous_status : String
  new_status : String
  changed_by : String
  reason : Option String := none
deriving DecidableEq

/-- One append-only row of `alert_notes`. -/
structure AlertNote where
  user_id : String
  content : String
  note_type : String
deriving DecidableEq

/-- One row of the `tasks` table (the lifecycle-relevant columns). -/
structure Task where
  id : Nat
  customer_id : Option String := none
  alert_id : Option Nat := none
  task_type : String := ""
  priority : String := ""
  status : String
  assigned_to : Option String := none
  assigned_by : Option String := none
  assigned_at : Option Nat := none
  completed_at : Option Nat := none
  completed_by : Option String := none
  resolution_notes : Option String := none
  title : String := ""
  description : String := ""
  created_by : Option String := none
  created_at : Nat := 0
deriving DecidableEq

/-- One append-only row of `task_status_history`. -/
structure TaskHistRow where
  task_id : Nat
  previous_status : String
  new_status : String
  changed_by : String
  reason : Option String := none
deriving DecidableEq

/-- One row of the `users` table (id plus the email used by task completion). -/
structure User where
  id : String
  email : String
deriving DecidableEq

/-- The relational store as seen by the engine: one alert under consideration,
its history and notes, the tasks table and task history, and the users table. -/
structure DB where
  alertId : Nat
  alert : Option Alert
  alertHistory : List AlertHistRow := []
  alertNotes : List AlertNote := []
  tasks : List Task := []
  taskHistory : List TaskHistRow := []
  users : List User := []
  nextTaskId : Nat := 1
  now : Nat := 0
deriving DecidableEq

/-- System user UUID for automated operations (`SYSTEM_USER_ID`). -/
def SYSTEM_USER_ID : String := "00000000-0000-0000-0000-000000000001"

/-- `_validate_user_exists`: membership in the `users` table. -/
def userExists (db : DB) (user_id : String) : Bool :=
  db.users.any (fun u => u.id == user_id)

/-- `_get_valid_user_id`: fall back to the system user when absent. -/
def getValidUserId (db : DB) (user_id : String) : String :=
  if userExists db user_id then user_id else SYSTEM_USER_ID

/-- `ALERT_STATUS_TRANSITIONS` of worker.py: valid new statuses per current status. -/
def ALERT_STATUS_TRANSITIONS : String → List String
  | "open" => ["assigned"]
  | "assigned" => ["in_progress", "open"]
  | "in_progress" => ["escalated", "on_hold", "resolved"]
  | "escalated" => ["in_progress", "resolved"]
  | "on_hold" => ["in_progress", "resolved"]
  | "resolved" => ["open"]
  | _ => []

/-- `RESOLUTION_TYPES` of worker.py. -/
def RESOLUTION_TYPES : List String :=
  ["confirmed_suspicious", "false_positive", "not_suspicious", "duplicate", "other"]

/-- `TASK_STATUS_TRANSITIONS` of worker.py; `completed` has no outgoing edges. -/
def TASK_STATUS_TRANSITIONS : String → List String
  | "pending" => ["in_progress"]
  | "in_progress" => ["pending", "completed"]
  | "completed" => []
  | _ => []

/-- Structured activity result: the `dict` returned by each activity. -/
structure ActResult where
  success : Bool
  error : Option String := none
  status : Option String := none
  assigned_to : Option String := none
  task_id : Option Nat := none
  task_action : Option String := none
deriving DecidableEq

/-- The `SELECT status FROM alerts WHERE id = %s` statement
(`_get_alert_current_status`); a separate statement from any later update. -/
def alertStatusRead (db : DB) : Option String :=
  db.alert.map (fun a => a.status)

/-- `_log_status_change`: append one row to `alert_status_history`. -/
def log_status_change (db : DB) (previous_status new_status changed_by : String)
    (reason : Option String) : DB :=
  { db with alertHistory :=
      { previous_status := previous_status
        new_status := new_status
        changed_by := changed_by
        reason := reason } :: db.alertHistory }

/-- The `UPDATE alerts SET status = ... WHERE id = %s` statement of
`assign_alert_activity`: note that its WHERE clause names only the id, so it
rewrites the row whatever the current status is. -/
def assignUpdateStmt (db : DB) (assigned_to valid_assigned_by : String) : DB :=
  { db with alert := db.alert.map (fun a =>
      { a with
        status := "assigned"
        assigned_to := some assigned_to
        assigned_by := some valid_assigned_by
        assigned_at := some db.now }) }

/-- Continuation of `assign_alert_activity` after the status SELECT: the
precondition check against the (possibly stale) read, then the unconditional
UPDATE and the history INSERT. -/
def assignAfterRead (db : DB) (current_status : Option String)
    (assigned_to : String) (assigned_by : Option String) : ActResult × DB :=
  match current_status with
  | none => ({ success := false, error := some "Alert not found" }, db)
  | some st =>
    if st ≠ "open" then
      ({ success := false, error := some ("Cannot assign alert in status " ++ st) }, db)
    else if ¬ userExists db assigned_to then
      ({ success := false, error := some ("User " ++ assigned_to ++ " not found") }, db)
    else
      let valid_assigned_by := getValidUserId db (assigned_by.getD assigned_to)
      let db1 := assignUpdateStmt db assigned_to valid_assigned_by
      let db2 := log_status_change db1 st "assigned" valid_assigned_by none
      ({ success := true, status := some "assigned", assigned_to := some assigned_to }, db2)

/-- `assign_alert_activity`: read the status, then check-and-update. -/
def assign_alert_activity (db : DB) (assigned_to : String)
    (assigned_by : Option String) : ActResult × DB :=
  assignAfterRead db (alertStatusRead db) assigned_to assigned_by

/-- `unassign_alert_activity`: `assigned → open`, clearing assignment fields. -/
def unassign_alert_activity (db : DB) (user_id : String) : ActResult × DB :=
  match db.alert with
  | none => ({ success := false, error := some "Alert not found" }, db)
  | some a =>
    if a.status ≠ "assigned" then
      ({ success := false, error := some ("Cannot unassign alert in status " ++ a.status) }, db)
    else
      let valid_user_id := getValidUserId db user_id
      let a1 := { a with
                  status := "open"
                  assigned_to := none
                  assigned_by := none
                  assigned_at := none }
      let db1 := { db with alert := some a1 }
      let db2 := log_status_change db1 a.status "open" valid_user_id (some "Unassigned")
      ({ success := true, status := some "open" }, db2)

/-- `start_alert_work_activity`: `assigned → in_progress`. -/
def start_alert_work_activity (db : DB) (user_id : String) : ActResult × DB :=
  match db.alert with
  | none => ({ success := false, error := some "Alert not found" }, db)
  | some a =>
    if a.status ≠ "assigned" then
      ({ success := false, error := some ("Cannot start work on alert in status " ++ a.status) }, db)
    else
      let valid_user_id := getValidUserId db user_id
      let db1 := { db with alert := some { a with status := "in_progress" } }
      let db2 := log_status_change db1 a.status "in_progress" valid_user_id (some "Started work")
      ({ success := true, status := some "in_progress" }, db2)

/-- `escalate_alert_lifecycle_activity`: `in_progress → escalated`; the target
user must exist, while the escalating actor falls back to the system user. -/
def escalate_alert_lifecycle_activity (db : DB) (escalated_by escalated_to reason : String) :
    ActResult × DB :=
  match db.alert with
  | none => ({ success := false, error := some "Alert not found" }, db)
  | some a =>
    if a.status ≠ "in_progress" then
      ({ success := false, error := some ("Cannot escalate alert in status " ++ a.status) }, db)
    else if ¬ userExists db escalated_to then
      ({ success := false, error := some ("Escalation target user " ++ escalated_to ++ " not found") }, db)
    else
      let valid_escalated_by := getValidUserId db escalated_by
      let a1 := { a with
                  status := "escalated"
                  escalated_to := some escalated_to
                  escalated_by := some valid_escalated_by
                  escalated_at := some db.now
                  escalation_reason := some reason }
      let db1 := { db with alert := some a1 }
      let db2 := log_status_change db1 a.status "escalated" valid_escalated_by (some reason)
      ({ success := true, status := some "escalated" }, db2)

/-- `hold_alert_activity`: `in_progress → on_hold`. -/
def hold_alert_activity (db : DB) (user_id : String) (reason : Option String) :
    ActResult × DB :=
  match db.alert with
  | none => ({ success := false, error := some "Alert not found" }, db)
  | some a =>
    if a.status ≠ "in_progress" then
      ({ success := false, error := some ("Cannot put alert on hold from status " ++ a.status) }, db)
    else
      let valid_user_id := getValidUserId db user_id
      let db1 := { db with alert := some { a with status := "on_hold" } }
      let db2 := log_status_change db1 a.status "on_hold" valid_user_id
        (some (reason.getD "Put on hold"))
      ({ success := true, status := some "on_hold" }, db2)

/-- `resume_alert_activity`: `on_hold/escalated → in_progress`. -/
def resume_alert_activity (db : DB) (user_id : String) : ActResult × DB :=
  match db.alert with
  | none => ({ success := false, error := some "Alert not found" }, db)
  | some a =>
    if ¬ (a.status = "on_hold" ∨ a.status = "escalated") then
      ({ success := false, error := some ("Cannot resume alert from status " ++ a.status) }, db)
    else
      let valid_user_id := getValidUserId db user_id
      let db1 := { db with alert := some { a with status := "in_progress" } }
      let db2 := log_status_change db1 a.status "in_progress" valid_user_id (some "Resumed work")
      ({ success := true, status := some "in_progress" }, db2)

/-- `resolve_alert_activity`: validates the resolution type first, then
`in_progress/escalated/on_hold → resolved`.  The alert column `resolved_by` is
written with the raw caller id while the history row uses the validated id. -/
def resolve_alert_activity (db : DB) (user_id resolution_type : String)
    (resolution_notes : Option String) : ActResult × DB :=
  if ¬ resolution_type ∈ RESOLUTION_TYPES then
    ({ success := false, error := some ("Invalid resolution type: " ++ resolution_type) }, db)
  else
    match db.alert with
    | none => ({ success := false, error := some "Alert not found" }, db)
    | some a =>
      if ¬ (a.status = "in_progress" ∨ a.status = "escalated" ∨ a.status = "on_hold") then
        ({ success := false, error := some ("Cannot resolve alert from status " ++ a.status) }, db)
      else
        let valid_user_id := getValidUserId db user_id
        let a1 := { a with
                    status := "resolved"
                    resolution_type := some resolution_type
                    resolution_notes := resolution_notes
                    resolved_by := some user_id
                    resolved_at := some db.now }
        let db1 := { db with alert := some a1 }
        let db2 := log_status_change db1 a.status "resolved" valid_user_id resolution_notes
        ({ success := true, status := some "resolved" }, db2)

/-- `reopen_alert_activity`: `resolved → open`; clears assignment fields and
`resolution_type`, `resolved_by`, `resolved_at` — but not `resolution_notes`. -/
def reopen_alert_activity (db : DB) (user_id : String) (reason : Option String) :
    ActResult × DB :=
  match db.alert with
  | none => ({ success := false, error := some "Alert not found" }, db)
  | some a =>
    if a.status ≠ "resolved" then
      ({ success := false, error := some ("Cannot reopen alert from status " ++ a.status) }, db)
    else
      let valid_user_id := getValidUserId db user_id
      let a1 := { a with
                  status := "open"
                  assigned_to := none
                  assigned_by := none
                  assigned_at := none
                  resolution_type := none
                  resolved_by := none
                  resolved_at := none }
      let db1 := { db with alert := some a1 }
      let db2 := log_status_change db1 a.status "open" valid_user_id
        (some (reason.getD "Reopened"))
      ({ success := true, status := some "open" }, db2)

/-- `add_alert_note_activity`: append-only note, never touches status or history. -/
def add_alert_note_activity (db : DB) (user_id content note_type : String) :
    ActResult × DB :=
  let valid_user_id := getValidUserId db user_id
  ({ success := true },
   { db with alertNotes :=
      { user_id := valid_user_id, content := content, note_type := note_type } :: db.alertNotes })

/-- `init_alert_activity`: seeds the audit trail with the pseudo-transition
`new → open`; it never fails and never touches the alert row itself. -/
def init_alert_activity (db : DB) : ActResult × DB :=
  ({ success := true, status := some "open" },
   log_status_change db "new" "open" SYSTEM_USER_ID
     (some "Alert created and workflow initialized"))

/-- `SELECT * FROM tasks WHERE id = %s`. -/
def findTask (db : DB) (task_id : Nat) : Option Task :=
  db.tasks.find? (fun t => t.id == task_id)

/-- `UPDATE tasks SET ... WHERE id = %s`: rewrite the rows with that id. -/
def updateTaskRow (db : DB) (task_id : Nat) (f : Task → Task) : DB :=
  { db with tasks := db.tasks.map (fun t => if t.id == task_id then f t else t) }

/-- `_log_task_status_change`: append one row to `task_status_history`. -/
def log_task_status_change (db : DB) (task_id : Nat)
    (previous_status new_status changed_by : String) (reason : Option String) : DB :=
  { db with taskHistory :=
      { task_id := task_id
        previous_status := previous_status
        new_status := new_status
        changed_by := changed_by
        reason := reason } :: db.taskHistory }

/-- `claim_task_activity`: the caller must exist; the task must not be held by
another user and must be pending or in progress; then it is assigned to the
caller and moved to `in_progress`, with one history row. -/
def claim_task_activity (db : DB) (task_id : Nat) (user_id : String) : ActResult × DB :=
  if ¬ userExists db user_id then
    ({ success := false, error := some ("User " ++ user_id ++ " not found") }, db)
  else
    match findTask db task_id with
    | none => ({ success := false, error := some "Task not found" }, db)
    | some task =>
      if task.assigned_to ≠ none ∧ task.assigned_to ≠ some user_id then
        ({ success := false, error := some "Task already assigned to another user" }, db)
      else if ¬ (task.status = "pending" ∨ task.status = "in_progress") then
        ({ success := false, error := some ("Cannot claim task in status " ++ task.status) }, db)
      else
        let db1 := updateTaskRow db task_id (fun t =>
          { t with
            assigned_to := some user_id
            assigned_at := some db.now
            status := "in_progress" })
        let db2 := log_task_status_change db1 task_id task.status "in_progress" user_id
          (some "Task claimed")
        ({ success := true, task_id := some task_id, status := some "in_progress",
           assigned_to := some user_id }, db2)

/-- `release_task_activity`: `in_progress → pending`, clearing assignment. -/
def release_task_activity (db : DB) (task_id : Nat) (user_id : String) : ActResult × DB :=
  let valid_user_id := getValidUserId db user_id
  match findTask db task_id with
  | none => ({ success := false, error := some "Task not found" }, db)
  | some task =>
    if task.status ≠ "in_progress" then
      ({ success := false, error := some ("Cannot release task in status " ++ task.status) }, db)
    else
      let db1 := updateTaskRow db task_id (fun t =>
        { t with
          assigned_to := none
          assigned_by := none
          assigned_at := none
          status := "pending" })
      let db2 := log_task_status_change db1 task_id task.status "pending" valid_user_id
        (some "Task released back to queue")
      ({ success := true, task_id := some task_id, status := some "pending" }, db2)

/-- `complete_task_activity`: rejects an already-completed task with an explicit
error; otherwise sets completion fields and appends one history row.  The
`completed_by` column records the email of the validated user when found. -/
def complete_task_activity (db : DB) (task_id : Nat) (user_id : String)
    (resolution_notes : Option String) : ActResult × DB :=
  let valid_user_id := getValidUserId db user_id
  let completed_by_str :=
    match db.users.find? (fun u => u.id == valid_user_id) with
    | some u => u.email
    | none => valid_user_id
  match findTask db task_id with
  | none => ({ success := false, error := some "Task not found" }, db)
  | some task =>
    if task.status = "completed" then
      ({ success := false, error := some "Task is already completed" }, db)
    else
      let db1 := updateTaskRow db task_id (fun t =>
        { t with
          status := "completed"
          completed_at := some db.now
          completed_by := some completed_by_str
          resolution_notes :=
            match resolution_notes with
            | some n => some n
            | none => t.resolution_notes })
      let db2 := log_task_status_change db1 task_id task.status "completed" valid_user_id
        (some (resolution_notes.getD "Task completed"))
      ({ success := true, task_id := some task_id, status := some "completed" }, db2)

/-- `assign_task_activity` (manager action): assigns a non-completed task,
moving `pending → in_progress` as a side effect; history is logged only when
the status actually changed. -/
def assign_task_activity (db : DB) (task_id : Nat) (assigned_to assigned_by : String) :
    ActResult × DB :=
  if ¬ userExists db assigned_to then
    ({ success := false, error := some ("Assignee " ++ assigned_to ++ " not found") }, db)
  else
    let valid_assigned_by := getValidUserId db assigned_by
    match findTask db task_id with
    | none => ({ success := false, error := some "Task not found" }, db)
    | some task =>
      if task.status = "completed" then
        ({ success := false, error := some "Cannot assign completed task" }, db)
      else
        let new_status := if task.status = "pending" then "in_progress" else task.status
        let db1 := updateTaskRow db task_id (fun t =>
          { t with
            assigned_to := some assigned_to
            assigned_by := some valid_assigned_by
            assigned_at := some db.now
            status := if t.status = "pending" then "in_progress" else t.status })
        let db2 :=
          if task.status ≠ new_status then
            log_task_status_change db1 task_id task.status new_status valid_assigned_by
              (some "Assigned to user")
          else db1
        ({ success := true, task_id := some task_id, status := some new_status,
           assigned_to := some assigned_to }, db2)

/-- `update_task_status_activity` (generic task update used by the business
workflows): sets the status unconditionally — no precondition on the current
status and no history row.  The `workflow_status` column is omitted. -/
def update_task_status_activity (db : DB) (task_id : Nat) (status : String)
    (notes : Option String) : DB :=
  updateTaskRow db task_id (fun t =>
    if status = "completed" then
      { t with
        status := status
        completed_at := some db.now
        resolution_notes :=
          match notes with
          | some n => some n
          | none => t.resolution_notes }
    else
      { t with
        status := status
        resolution_notes :=
          match notes with
          | some n => some n
          | none => t.resolution_notes })

/-- Action-specific parameters of a Dispatch call (the `params` dict). -/
structure Params where
  assigned_to : Option String := none
  assigned_by : Option String := none
  escalated_to : Option String := none
  reason : Option String := none
  resolution_type : Option String := none
  resolution_notes : Option String := none
  content : Option String := none
  note_type : Option String := none
deriving DecidableEq

/-- Priority mapping used by the resolver for investigation tasks. -/
def severityPriority (sev : String) : String :=
  if sev = "critical" then "critical"
  else if sev = "high" then "high"
  else if sev = "medium" then "medium"
  else if sev = "low" then "low"
  else "medium"

/-- Lowercasing as applied to the alert severity by the resolver. -/
def strLower (s : String) : String := s.map Char.toLower

/-- The existing-task query of `create_task_from_alert_activity`:
`SELECT id, status FROM tasks WHERE alert_id = %s AND status IN
(pending, in_progress) ORDER BY created_at DESC LIMIT 1`. -/
def openTaskFor (db : DB) : Option Task :=
  (db.tasks.filter (fun t =>
      t.alert_id == some db.alertId && (t.status == "pending" || t.status == "in_progress"))).foldl
    (fun acc t =>
      match acc with
      | none => some t
      | some b => if b.created_at < t.created_at then some t else some b) none

/-- `create_task_from_alert_activity` (task-linkage resolver): update the open
task of the alert in place when one exists, otherwise insert exactly one new
task whose type, priority and title derive from the action and the alert. -/
def create_task_from_alert_activity (db : DB) (action : String) (user_id : String)
    (params : Params) : ActResult × DB :=
  match db.alert with
  | none => ({ success := false, error := some "Alert not found" }, db)
  | some a =>
    let existing_task := openTaskFor db
    let task_type := if action = "escalate" then "escalation" else "investigation"
    let priority :=
      if action = "escalate" then
        if a.severity = some "critical" then "critical" else "high"
      else severityPriority (strLower (a.severity.getD "medium"))
    let title :=
      if action = "escalate" then "Escalation: " ++ (a.scenario.getD "Unknown")
      else "Investigate: " ++ (a.scenario.getD "Unknown")
    let description :=
      if action = "escalate" then
        "Escalated alert review: " ++ (params.reason.getD "Escalated for senior review")
      else "Alert investigation for " ++ (a.customer_name.getD "Unknown customer")
    let assigned_to := ((params.assigned_to).orElse (fun _ => params.escalated_to)).getD user_id
    match existing_task with
    | some e =>
      let db1 := updateTaskRow db e.id (fun t =>
        { t with
          assigned_to := some assigned_to
          assigned_at := some db.now
          priority := priority
          status := "in_progress" })
      ({ success := true, task_id := some e.id, task_action := some "updated" }, db1)
    | none =>
      let newTask : Task :=
        { id := db.nextTaskId
          customer_id := a.customer_id
          alert_id := some db.alertId
          task_type := task_type
          priority := priority
          status := "pending"
          assigned_to := some assigned_to
          assigned_at := some db.now
          title := title
          description := description
          created_by := some SYSTEM_USER_ID
          created_at := db.now }
      ({ success := true, task_id := some db.nextTaskId, task_action := some "created" },
       { db with tasks := newTask :: db.tasks, nextTaskId := db.nextTaskId + 1 })

/-- `AlertLifecycleWorkflow.run`: the per-action Dispatcher.  Routes the action
string to the matching activity, enforces the reopen role gate, and composes
the task-linkage side effect after a successful assign or escalate.  The
Python try/except wrapper is not needed: every modelled activity is total. -/
def alertWorkflowRun (db : DB) (action user_id user_role : String) (params : Params) :
    ActResult × DB :=
  if action = "init" then
    init_alert_activity db
  else if action = "assign" then
    let assigned_to := params.assigned_to.getD user_id
    let r := assign_alert_activity db assigned_to params.assigned_by
    if r.1.success then
      let tr := create_task_from_alert_activity r.2 "assign" user_id
        { assigned_to := some assigned_to }
      ({ r.1 with task_id := tr.1.task_id, task_action := tr.1.task_action }, tr.2)
    else r
  else if action = "unassign" then
    unassign_alert_activity db user_id
  else if action = "start" then
    start_alert_work_activity db user_id
  else if action = "escalate" then
    match params.escalated_to with
    | none => ({ success := false, error := some "escalated_to is required" }, db)
    | some escalated_to =>
      let reason := params.reason.getD "Escalated"
      let r := escalate_alert_lifecycle_activity db user_id escalated_to reason
      if r.1.success then
        let tr := create_task_from_alert_activity r.2 "escalate" user_id
          { escalated_to := some escalated_to, reason := some reason }
        ({ r.1 with task_id := tr.1.task_id, task_action := tr.1.task_action }, tr.2)
      else r
  else if action = "hold" then
    hold_alert_activity db user_id params.reason
  else if action = "resume" then
    resume_alert_activity db user_id
  else if action = "resolve" then
    match params.resolution_type with
    | none => ({ success := false, error := some "resolution_type is required" }, db)
    | some resolution_type =>
      resolve_alert_activity db user_id resolution_type params.resolution_notes
  else if action = "reopen" then
    if ¬ (user_role = "manager" ∨ user_role = "admin") then
      ({ success := false, error := some "Only managers can reopen alerts" }, db)
    else
      reopen_alert_activity db user_id params.reason
  else if action = "add_note" then
    match params.content with
    | none => ({ success := false, error := some "content is required" }, db)
    | some content =>
      add_alert_note_activity db user_id content (params.note_type.getD "comment")
  else
    ({ success := false, error := some ("Unknown action: " ++ action) }, db)

/-- Interleaving of two concurrent `assign_alert_activity` calls at statement
granularity: both status SELECTs run before either UPDATE, then each call
finishes with the statements of `assignAfterRead` against its stale read. -/
def interleavedAssigns (db : DB) (u1 u2 : String) : ActResult × ActResult × DB :=
  let s1 := alertStatusRead db
  let s2 := alertStatusRead db
  let r1 := assignAfterRead db s1 u1 none
  let r2 := assignAfterRead r1.2 s2 u2 none
  (r1.1, r2.1, r2.2)

/-- The alert lifecycle actions routed by the Dispatcher (init, which only
seeds history, is modelled separately by `init_alert_activity`). -/
inductive AlertOp where
  | assign (assigned_to : String) (assigned_by : Option String)
  | unassign (user : String)
  | start (user : String)
  | escalate (escalated_by escalated_to reason : String)
  | hold (user : String) (reason : Option String)
  | resume (user : String)
  | resolve (user resolution_type : String) (notes : Option String)
  | reopen (user : String) (reason : Option String)
  | addNote (user content note_type : String)
deriving DecidableEq

/-- Run the activity matching an alert lifecycle action. -/
def applyAlertOp (db : DB) : AlertOp → ActResult × DB
  | .assign t b => assign_alert_activity db t b
  | .unassign u => unassign_alert_activity db u
  | .start u => start_alert_work_activity db u
  | .escalate b t r => escalate_alert_lifecycle_activity db b t r
  | .hold u r => hold_alert_activity db u r
  | .resume u => resume_alert_activity db u
  | .resolve u ty n => resolve_alert_activity db u ty n
  | .reopen u r => reopen_alert_activity db u r
  | .addNote u c nt => add_alert_note_activity db u c nt

/-- Run a sequence of alert lifecycle actions, keeping only the store. -/
def runAlertOps (db : DB) (ops : List AlertOp) : DB :=
  ops.foldl (fun d op => (applyAlertOp d op).2) db

/-- The task lifecycle actions routed by `TaskLifecycleWorkflow`. -/
inductive TaskOp where
  | claim (task_id : Nat) (user : String)
  | release (task_id : Nat) (user : String)
  | complete (task_id : Nat) (user : String) (notes : Option String)
  | assign (task_id : Nat) (assigned_to assigned_by : String)
deriving DecidableEq

/-- Run the activity matching a task lifecycle action. -/
def applyTaskOp (db : DB) : TaskOp → ActResult × DB
  | .claim tid u => claim_task_activity db tid u
  | .release tid u => release_task_activity db tid u
  | .complete tid u n => complete_task_activity db tid u n
  | .assign tid t b => assign_task_activity db tid t b

/-- Run a sequence of task lifecycle actions, keeping only the store. -/
def runTaskOps (db : DB) (ops : List TaskOp) : DB :=
  ops.foldl (fun d op => (applyTaskOp d op).2) db

/-- The valid from-states of each alert action, per the spec §4.1 table; these
coincide with the status guard written inside each activity.  `addNote` has no
status precondition. -/
def actionValidFrom : AlertOp → Option (List String)
  | .assign _ _ => some ["open"]
  | .unassign _ => some ["assigned"]
  | .start _ => some ["assigned"]
  | .escalate _ _ _ => some ["in_progress"]
  | .hold _ _ => some ["in_progress"]
  | .resume _ => some ["on_hold", "escalated"]
  | .resolve _ _ _ => some ["in_progress", "escalated", "on_hold"]
  | .reopen _ _ => some ["resolved"]
  | .addNote _ _ _ => none

/-- The target status of each Dispatcher action string (§4.1 table). -/
def actionTargetStatus (action : String) : Option String :=
  if action = "assign" then some "assigned"
  else if action = "unassign" then some "open"
  else if action = "start" then some "in_progress"
  else if action = "escalate" then some "escalated"
  else if action = "hold" then some "on_hold"
  else if action = "resume" then some "in_progress"
  else if action = "resolve" then some "resolved"
  else if action = "reopen" then some "open"
  else none

/-- The newest row of an alert history ends in the given status (vacuous for
an empty history). -/
def headMatchesA (hist : List AlertHistRow) (st : String) : Bool :=
  match hist with
  | [] => true
  | r :: _ => r.new_status == st

/-- A history list (newest first) is chained when each row starts where the
next-older row ended. -/
def chainA : List AlertHistRow → Bool
  | [] => true
  | r :: l => headMatchesA l r.previous_status && chainA l

/-- The newest row of a task history ends in the given status (vacuous for an
empty history). -/
def headLinkT (hist : List TaskHistRow) (st : String) : Bool :=
  match hist with
  | [] => true
  | r :: _ => r.new_status == st

/-- A task history list (newest first) is chained likewise. -/
def chainT : List TaskHistRow → Bool
  | [] => true
  | r :: l => headLinkT l r.previous_status && chainT l

/-- The newest row of a task history ends in the given status; a task with no
history yet must still be in its creation status `pending`. -/
def headMatchesT (hist : List TaskHistRow) (st : String) : Bool :=
  match hist with
  | [] => st == "pending"
  | r :: _ => r.new_status == st

/-- An alert history row realizes a listed transition, or is the initial
`new → open` pseudo-transition. -/
def alertRowOK (r : AlertHistRow) : Bool :=
  (ALERT_STATUS_TRANSITIONS r.previous_status).contains r.new_status
    || (r.previous_status == "new" && r.new_status == "open")

/-- A task history row realizes a listed transition, or one of the two extra
edges the code actually writes: the re-claim self loop
`in_progress → in_progress` and the direct `pending → completed` of completing
an unclaimed task. -/
def taskRowOKext (r : TaskHistRow) : Bool :=
  (TASK_STATUS_TRANSITIONS r.previous_status).contains r.new_status
    || (r.previous_status == "in_progress" && r.new_status == "in_progress")
    || (r.previous_status == "pending" && r.new_status == "completed")

/-- Audit-trail invariant for the alert: the history is chained, every row is a
valid transition (or the initial pseudo-row), and the newest row agrees with
the alert's current status. -/
def alertInvB (db : DB) : Bool :=
  match db.alert with
  | none => true
  | some a =>
    chainA db.alertHistory && db.alertHistory.all alertRowOK &&
      headMatchesA db.alertHistory a.status

/-- The history rows of one task, newest first. -/
def taskHistFor (db : DB) (task_id : Nat) : List TaskHistRow :=
  db.taskHistory.filter (fun r => r.task_id == task_id)

/-- Audit-trail invariant for one task row paired with its history: the history
is chained, every row is in the extended transition relation, and the newest
row agrees with the task's current status (a task without history is still in
its creation status `pending`). -/
def taskInvAux (t : Option Task) (hist : List TaskHistRow) : Bool :=
  match t with
  | none => hist.isEmpty
  | some t => chainT hist && hist.all taskRowOKext && headMatchesT hist t.status

/-- Audit-trail invariant for the task with the given id. -/
def taskInvB (db : DB) (task_id : Nat) : Bool :=
  taskInvAux (findTask db task_id) (taskHistFor db task_id)

/-- Resolution-field condition on one alert row: `resolution_type`,
`resolved_by` and `resolved_at` are set exactly when the row is resolved. -/
def resAuxB (a : Alert) : Bool :=
  (a.status == "resolved") ==
    (a.resolution_type.isSome && a.resolved_by.isSome && a.resolved_at.isSome)

/-- Resolution-field invariant of the store. -/
def resInvB (db : DB) : Bool :=
  match db.alert with
  | none => true
  | some a => resAuxB a

/-- Two registered users for concrete stores. -/
def exUsers : List User :=
  [{ id := "u1", email := "u1@example.com" }, { id := "u2", email := "u2@example.com" }]

/-- The history row written by alert initialization. -/
def exInitRow : AlertHistRow :=
  { previous_status := "new", new_status := "open", changed_by := SYSTEM_USER_ID,
    reason := some "Alert created and workflow initialized" }

/-- A freshly created alert row, before any lifecycle action. -/
def exAlertOpen : Alert := { status := "open", severity := some "high" }

/-- Store with an initialized open alert and no tasks. -/
def exDBopen : DB :=
  { alertId := 42, alert := some exAlertOpen, alertHistory := [exInitRow],
    users := exUsers, now := 5 }

/-- An alert row already assigned to u1. -/
def exAlertAssigned : Alert :=
  { status := "assigned", assigned_to := some "u1", assigned_by := some "u1",
    assigned_at := some 5, severity := some "high" }

/-- Store with an alert already assigned to u1. -/
def exDBassigned : DB :=
  { alertId := 42
    alert := some exAlertAssigned
    alertHistory := [{ previous_status := "open", new_status := "assigned", changed_by := "u1" },
                     exInitRow]
    users := exUsers
    now := 6 }

/-- An alert row whose investigation is in progress. -/
def exAlertInprog : Alert :=
  { status := "in_progress", assigned_to := some "u1", assigned_by := some "u1",
    assigned_at := some 5 }

/-- Store with an alert in progress. -/
def exDBinprog : DB :=
  { alertId := 42
    alert := some exAlertInprog
    alertHistory := [{ previous_status := "assigned", new_status := "in_progress", changed_by := "u1" },
                     { previous_status := "open", new_status := "assigned", changed_by := "u1" },
                     exInitRow]
    users := exUsers
    now := 7 }

/-- A resolved alert row carrying resolution notes. -/
def exAlertResolved : Alert :=
  { status := "resolved", resolution_type := some "false_positive",
    resolution_notes := some "looked fine", resolved_by := some "u1", resolved_at := some 8 }

/-- Store with a resolved alert carrying resolution notes. -/
def exDBresolved : DB :=
  { alertId := 42
    alert := some exAlertResolved
    alertHistory := [{ previous_status := "in_progress", new_status := "resolved", changed_by := "u1" },
                     { previous_status := "assigned", new_status := "in_progress", changed_by := "u1" },
                     { previous_status := "open", new_status := "assigned", changed_by := "u1" },
                     exInitRow]
    users := exUsers
    now := 9 }

/-- Store with an open alert whose history was never initialized. -/
def exDBfresh : DB :=
  { alertId := 7, alert := some exAlertOpen, users := exUsers, now := 1 }

/-- Store with one pending, unassigned task (id 1) and no alert row in focus. -/
def exDBtaskPending : DB :=
  { alertId := 0, alert := none, tasks := [{ id := 1, status := "pending" }],
    users := exUsers, now := 3 }

/-- Store with one cancelled task: a status written by the business workflows
through the generic task update, outside the §4.2 state machine. -/
def exDBtaskCancelled : DB :=
  { alertId := 0, alert := none, tasks := [{ id := 1, status := "cancelled" }],
    users := exUsers, now := 3 }

/-- Store with one completed task. -/
def exDBtaskCompleted : DB :=
  { alertId := 0, alert := none
    tasks := [{ id := 1, status := "completed", completed_at := some 2,
                completed_by := some "u1@example.com" }]
    taskHistory := [{ task_id := 1, previous_status := "in_progress",
                      new_status := "completed", changed_by := "u1" }]
    users := exUsers, now := 3 }

/-- Mapping a function that does not change the search predicate commutes with
`find?`. -/
theorem find?_map_pred (l : List Task) (p : Task → Bool) (f : Task → Task)
    (hf : ∀ x, p (f x) = p x) : (l.map f).find? p = (l.find? p).map f := by
  induction l with
  | nil => simp
  | cons a l ih =>
    by_cases hp : p a = true
    · rw [List.map_cons, List.find?_cons_of_pos _ (by rw [hf]; exact hp),
        List.find?_cons_of_pos _ hp, Option.map_some']
    · rw [List.map_cons, List.find?_cons_of_neg _ (by rw [hf]; simpa using hp),
        List.find?_cons_of_neg _ (by simpa using hp), ih]

/-- Looking up a task after an id-targeted update: the row with the looked-up
id is transformed exactly when it is the targeted one. -/
theorem findTask_updateTaskRow (db : DB) (tid tid' : Nat) (g : Task → Task)
    (hg : ∀ t, (g t).id = t.id) :
    findTask (updateTaskRow db tid' g) tid =
      (findTask db tid).map (fun t => if t.id == tid' then g t else t) := by
  unfold findTask updateTaskRow
  exact find?_map_pred db.tasks (fun t => t.id == tid)
    (fun t => if t.id == tid' then g t else t)
    (by intro t; by_cases h : t.id == tid' <;> simp [h, hg])

/-- Claim C1: for every alert lifecycle activity (assign, unassign, start,
escalate, hold, resume, resolve, reopen) and every alert whose current status
is not a valid from-state for that action, the activity returns a structured
failure result (success false with an error message) and performs no mutation
of the alert row and appends no history row. -/
theorem claim1_invalid_from_state_fails (db : DB) (a : Alert) (op : AlertOp)
    (vf : List String) (halert : db.alert = some a)
    (hvf : actionValidFrom op = some vf) (hnot : a.status ∉ vf) :
    (applyAlertOp db op).1.success = false ∧
    (applyAlertOp db op).1.error ≠ none ∧
    (applyAlertOp db op).2 = db := by
  cases op with
  | assign t b =>
    simp only [actionValidFrom, Option.some.injEq] at hvf
    subst hvf
    simp only [List.mem_singleton] at hnot
    simp [applyAlertOp, assign_alert_activity, assignAfterRead, alertStatusRead, halert, hnot]
  | unassign u =>
    simp only [actionValidFrom, Option.some.injEq] at hvf
    subst hvf
    simp only [List.mem_singleton] at hnot
    simp [applyAlertOp, unassign_alert_activity, halert, hnot]
  | start u =>
    simp only [actionValidFrom, Option.some.injEq] at hvf
    subst hvf
    simp only [List.mem_singleton] at hnot
    simp [applyAlertOp, start_alert_work_activity, halert, hnot]
  | escalate b t r =>
    simp only [actionValidFrom, Option.some.injEq] at hvf
    subst hvf
    simp only [List.mem_singleton] at hnot
    simp [applyAlertOp, escalate_alert_lifecycle_activity, halert, hnot]
  | hold u r =>
    simp only [actionValidFrom, Option.some.injEq] at hvf
    subst hvf
    simp only [List.mem_singleton] at hnot
    simp [applyAlertOp, hold_alert_activity, halert, hnot]
  | resume u =>
    simp only [actionValidFrom, Option.some.injEq] at hvf
    subst hvf
    simp only [List.mem_cons, List.mem_singleton, List.not_mem_nil, or_false] at hnot
    push_neg at hnot
    simp [applyAlertOp, resume_alert_activity, halert, hnot.1, hnot.2]
  | resolve u ty n =>
    simp only [actionValidFrom, Option.some.injEq] at hvf
    subst hvf
    simp only [List.mem_cons, List.mem_singleton, List.not_mem_nil, or_false] at hnot
    push_neg at hnot
    by_cases hty : ty ∈ RESOLUTION_TYPES
    · simp [applyAlertOp, resolve_alert_activity, hty, halert, hnot.1, hnot.2.1, hnot.2.2]
    · simp [applyAlertOp, resolve_alert_activity, hty]
  | reopen u r =>
    simp only [actionValidFrom, Option.some.injEq] at hvf
    subst hvf
    simp only [List.mem_singleton] at hnot
    simp [applyAlertOp, reopen_alert_activity, halert, hnot]
  | addNote u c nt =>
    simp [actionValidFrom] at hvf

/-- Witness for C1: holding the freshly opened alert is rejected without any
mutation, since `open` is not a valid from-state for hold. -/
theorem claim1_witness :
    exDBopen.alert = some exAlertOpen ∧ "open" ∉ ["in_progress"] ∧
    (applyAlertOp exDBopen (AlertOp.hold "u1" none)).1.success = false ∧
    (applyAlertOp exDBopen (AlertOp.hold "u1" none)).2 = exDBopen :=
  ⟨rfl, by decide,
   (claim1_invalid_from_state_fails exDBopen exAlertOpen (AlertOp.hold "u1" none)
     ["in_progress"] rfl rfl (by decide)).1,
   (claim1_invalid_from_state_fails exDBopen exAlertOpen (AlertOp.hold "u1" none)
     ["in_progress"] rfl rfl (by decide)).2.2⟩

/-- Counterexample to C2 as stated: the alert is already in `assigned`, the
target status of assign, yet re-dispatching the same assign call returns
success false (a precondition failure), not success true. -/
theorem claim2_counterexample :
    exDBassigned.alert = some exAlertAssigned ∧ exAlertAssigned.status = "assigned" ∧
    actionTargetStatus "assign" = some "assigned" ∧
    (alertWorkflowRun exDBassigned "assign" "u1" "analyst"
      { assigned_to := some "u1" }).1.success = false := by
  refine ⟨rfl, rfl, rfl, ?_⟩
  decide

/-- Claim C2 (amended): re-dispatching an action against an alert already in
that action's target status is rejected with success false and leaves the
store untouched (no double-applied transition, no extra history row) — a safe
no-op at the state level, but reported as a precondition failure rather than
as success. -/
theorem claim2_replay_rejected_without_mutation (db : DB) (a : Alert)
    (action t user role : String) (params : Params)
    (halert : db.alert = some a) (htgt : actionTargetStatus action = some t)
    (hst : a.status = t) :
    (alertWorkflowRun db action user role params).1.success = false ∧
    (alertWorkflowRun db action user role params).2 = db := by
  simp only [actionTargetStatus] at htgt
  split_ifs at htgt with h1 h2 h3 h4 h5 h6 h7 h8
  · subst h1
    injection htgt with ht
    subst ht
    simp [alertWorkflowRun, assign_alert_activity, assignAfterRead, alertStatusRead, halert, hst]
  · subst h2
    injection htgt with ht
    subst ht
    simp [alertWorkflowRun, unassign_alert_activity, halert, hst]
  · subst h3
    injection htgt with ht
    subst ht
    simp [alertWorkflowRun, start_alert_work_activity, halert, hst]
  · subst h4
    injection htgt with ht
    subst ht
    rcases hesc : params.escalated_to with _ | e
    · simp [alertWorkflowRun, hesc]
    · simp [alertWorkflowRun, hesc, escalate_alert_lifecycle_activity, halert, hst]
  · subst h5
    injection htgt with ht
    subst ht
    simp [alertWorkflowRun, hold_alert_activity, halert, hst]
  · subst h6
    injection htgt with ht
    subst ht
    simp [alertWorkflowRun, resume_alert_activity, halert, hst]
  · subst h7
    injection htgt with ht
    subst ht
    rcases hrt : params.resolution_type with _ | rt
    · simp [alertWorkflowRun, hrt]
    · by_cases hty : rt ∈ RESOLUTION_TYPES
      · simp [alertWorkflowRun, hrt, resolve_alert_activity, hty, halert, hst]
      · simp [alertWorkflowRun, hrt, resolve_alert_activity, hty]
  · subst h8
    injection htgt with ht
    subst ht
    by_cases hrole : role = "manager" ∨ role = "admin"
    · simp [alertWorkflowRun, hrole, reopen_alert_activity, halert, hst]
    · simp [alertWorkflowRun, hrole]

/-- Witness for the amended C2: a second assign of the already-assigned alert
is rejected and the store is unchanged. -/
theorem claim2_witness :
    exDBassigned.alert = some exAlertAssigned ∧
    actionTargetStatus "assign" = some "assigned" ∧ exAlertAssigned.status = "assigned" ∧
    (alertWorkflowRun exDBassigned "assign" "u1" "analyst"
      { assigned_to := some "u1" }).2 = exDBassigned :=
  ⟨rfl, rfl, rfl,
   (claim2_replay_rejected_without_mutation exDBassigned exAlertAssigned "assign" "assigned"
     "u1" "analyst" { assigned_to := some "u1" } rfl rfl rfl).2⟩

/-- Claim C5: on a resolved alert, a reopen dispatched with a role other than
manager or admin is rejected with a failure result and mutates nothing, while
a reopen dispatched as manager or admin succeeds and moves the alert to open
with the assignment fields cleared. -/
theorem claim5_reopen_role_gate (db : DB) (a : Alert) (user role : String)
    (params : Params) (halert : db.alert = some a) (hres : a.status = "resolved") :
    (¬ (role = "manager" ∨ role = "admin") →
      (alertWorkflowRun db "reopen" user role params).1.success = false ∧
      (alertWorkflowRun db "reopen" user role params).2 = db) ∧
    ((role = "manager" ∨ role = "admin") →
      (alertWorkflowRun db "reopen" user role params).1.success = true ∧
      (alertWorkflowRun db "reopen" user role params).2.alert =
        some { a with
               status := "open"
               assigned_to := none
               assigned_by := none
               assigned_at := none
               resolution_type := none
               resolved_by := none
               resolved_at := none }) := by
  constructor
  · intro hrole
    simp [alertWorkflowRun, hrole]
  · intro hrole
    simp [alertWorkflowRun, hrole, reopen_alert_activity, halert, hres, log_status_change]

/-- Witness for C5: an analyst cannot reopen the resolved alert, a manager can,
and the manager's reopen clears the assignment fields. -/
theorem claim5_witness :
    exDBresolved.alert = some exAlertResolved ∧ exAlertResolved.status = "resolved" ∧
    ¬ ("analyst" = "manager" ∨ "analyst" = "admin") ∧
    (alertWorkflowRun exDBresolved "reopen" "u1" "analyst" {}).1.success = false ∧
    (alertWorkflowRun exDBresolved "reopen" "u1" "analyst" {}).2 = exDBresolved ∧
    (alertWorkflowRun exDBresolved "reopen" "u1" "manager" {}).1.success = true :=
  ⟨rfl, rfl, by decide,
   ((claim5_reopen_role_gate exDBresolved exAlertResolved "u1" "analyst" {} rfl rfl).1
     (by decide)).1,
   ((claim5_reopen_role_gate exDBresolved exAlertResolved "u1" "analyst" {} rfl rfl).1
     (by decide)).2,
   ((claim5_reopen_role_gate exDBresolved exAlertResolved "u1" "manager" {} rfl rfl).2
     (by decide)).1⟩

/-- Counterexample to C7 as stated: a missing `assigned_to` reference makes the
assign action fail outright (no system-identity substitution), and a resolve
by a missing actor succeeds but records the raw stale id — not the system
identity — in the alert's `resolved_by` column. -/
theorem claim7_counterexample :
    userExists exDBopen "ghost" = false ∧
    (assign_alert_activity exDBopen "ghost" none).1.success = false ∧
    (assign_alert_activity exDBopen "ghost" none).2 = exDBopen ∧
    userExists exDBinprog "ghost" = false ∧
    (resolve_alert_activity exDBinprog "ghost" "false_positive" none).1.success = true ∧
    (resolve_alert_activity exDBinprog "ghost" "false_positive" none).2.alert.map
      (fun a => a.resolved_by) = some (some "ghost") := by
  decide

/-- Claim C7 (amended): only actor references fall back to the system identity;
target references must exist.  A missing `assigned_by` is replaced by the
system user in both the alert row and the history row and assign still
succeeds; a missing acting user on hold still succeeds with the system user in
the history row; a missing `assigned_to` makes assign fail with no mutation;
and a resolve by a missing actor succeeds with the system user in the history
row but the raw actor id in the `resolved_by` column. -/
theorem claim7_actor_fallback_target_required :
    (∀ (db : DB) (a : Alert) (tgt by_ : String), db.alert = some a → a.status = "open" →
      userExists db tgt = true → userExists db by_ = false →
      (assign_alert_activity db tgt (some by_)).1.success = true ∧
      (assign_alert_activity db tgt (some by_)).2.alert =
        some { a with
               status := "assigned"
               assigned_to := some tgt
               assigned_by := some SYSTEM_USER_ID
               assigned_at := some db.now } ∧
      (assign_alert_activity db tgt (some by_)).2.alertHistory =
        { previous_status := a.status, new_status := "assigned",
          changed_by := SYSTEM_USER_ID, reason := none } :: db.alertHistory) ∧
    (∀ (db : DB) (a : Alert) (u : String) (r : Option String),
      db.alert = some a → a.status = "in_progress" → userExists db u = false →
      (hold_alert_activity db u r).1.success = true ∧
      (hold_alert_activity db u r).2.alertHistory =
        { previous_status := a.status, new_status := "on_hold",
          changed_by := SYSTEM_USER_ID, reason := some (r.getD "Put on hold") }
          :: db.alertHistory) ∧
    (∀ (db : DB) (a : Alert) (tgt : String) (by_ : Option String),
      db.alert = some a → a.status = "open" → userExists db tgt = false →
      (assign_alert_activity db tgt by_).1.success = false ∧
      (assign_alert_activity db tgt by_).2 = db) ∧
    (∀ (db : DB) (a : Alert) (u : String) (n : Option String),
      db.alert = some a → a.status = "in_progress" → userExists db u = false →
      (resolve_alert_activity db u "false_positive" n).1.success = true ∧
      (resolve_alert_activity db u "false_positive" n).2.alert.map
        (fun x => x.resolved_by) = some (some u) ∧
      (resolve_alert_activity db u "false_positive" n).2.alertHistory =
        { previous_status := a.status, new_status := "resolved",
          changed_by := SYSTEM_USER_ID, reason := n } :: db.alertHistory) := by
  refine ⟨?_, ?_, ?_, ?_⟩
  · intro db a tgt by_ halert hst htgt hby
    simp [assign_alert_activity, assignAfterRead, alertStatusRead, halert, hst, htgt,
      assignUpdateStmt, log_status_change, getValidUserId, hby]
  · intro db a u r halert hst hu
    simp [hold_alert_activity, halert, hst, log_status_change, getValidUserId, hu]
  · intro db a tgt by_ halert hst htgt
    simp [assign_alert_activity, assignAfterRead, alertStatusRead, halert, hst, htgt]
  · intro db a u n halert hst hu
    simp [resolve_alert_activity, RESOLUTION_TYPES, halert, hst, log_status_change,
      getValidUserId, hu]

/-- Witness for the amended C7: assigning to u1 with the unknown assigner ghost
succeeds and records the system user as assigner. -/
theorem claim7_witness :
    exDBopen.alert = some exAlertOpen ∧ exAlertOpen.status = "open" ∧
    userExists exDBopen "u1" = true ∧ userExists exDBopen "ghost" = false ∧
    (assign_alert_activity exDBopen "u1" (some "ghost")).1.success = true ∧
    (assign_alert_activity exDBopen "u1" (some "ghost")).2.alert =
      some { exAlertOpen with
             status := "assigned"
             assigned_to := some "u1"
             assigned_by := some SYSTEM_USER_ID
             assigned_at := some exDBopen.now } :=
  ⟨rfl, rfl, by decide, by decide,
   (claim7_actor_fallback_target_required.1 exDBopen exAlertOpen "u1" "ghost" rfl rfl
     (by decide) (by decide)).1,
   (claim7_actor_fallback_target_required.1 exDBopen exAlertOpen "u1" "ghost" rfl rfl
     (by decide) (by decide)).2.1⟩

/-- Counterexample to C8 as stated: reopening the resolved alert succeeds and
moves it to open, yet `resolution_notes` is left in place — the resolution
fields are not all cleared. -/
theorem claim8_counterexample :
    exDBresolved.alert = some exAlertResolved ∧
    exAlertResolved.resolution_notes = some "looked fine" ∧
    (reopen_alert_activity exDBresolved "u1" none).1.success = true ∧
    (reopen_alert_activity exDBresolved "u1" none).2.alert.map
      (fun a => (a.status, a.resolution_notes)) = some ("open", some "looked fine") := by
  decide

/-- Claim C8 (amended): `resolution_type`, `resolved_by` and `resolved_at` are
set iff the alert is resolved, and every lifecycle activity preserves this; a
successful resolve sets those three fields (and overwrites `resolution_notes`
with the supplied value, possibly absent), while a successful reopen clears
those three fields and moves the alert to open but keeps `resolution_notes`. -/
theorem claim8_resolution_fields_iff_resolved :
    (∀ (db : DB) (op : AlertOp), resInvB db = true → resInvB (applyAlertOp db op).2 = true) ∧
    (∀ (db : DB) (ops : List AlertOp), resInvB db = true →
      resInvB (runAlertOps db ops) = true) ∧
    (∀ (db : DB) (a : Alert) (u ty : String) (n : Option String), db.alert = some a →
      (resolve_alert_activity db u ty n).1.success = true →
      (resolve_alert_activity db u ty n).2.alert =
        some { a with
               status := "resolved"
               resolution_type := some ty
               resolution_notes := n
               resolved_by := some u
               resolved_at := some db.now }) ∧
    (∀ (db : DB) (a : Alert) (u : String) (r : Option String), db.alert = some a →
      (reopen_alert_activity db u r).1.success = true →
      (reopen_alert_activity db u r).2.alert =
        some { a with
               status := "open"
               assigned_to := none
               assigned_by := none
               assigned_at := none
               resolution_type := none
               resolved_by := none
               resolved_at := none }) := by
  have step : ∀ (db : DB) (op : AlertOp), resInvB db = true →
      resInvB (applyAlertOp db op).2 = true := by
    intro db op hinv
    cases op with
    | assign t b =>
      cases halert : db.alert with
      | none =>
        simpa [applyAlertOp, assign_alert_activity, assignAfterRead, alertStatusRead,
          halert] using hinv
      | some a =>
        by_cases hst : a.status = "open"
        · by_cases hu : userExists db t
          · simp only [resInvB, halert, resAuxB, hst] at hinv
            simpa [applyAlertOp, assign_alert_activity, assignAfterRead, alertStatusRead,
              halert, hst, hu, assignUpdateStmt, log_status_change, resInvB, resAuxB]
              using hinv
          · simpa [applyAlertOp, assign_alert_activity, assignAfterRead, alertStatusRead,
              halert, hst, hu] using hinv
        · simpa [applyAlertOp, assign_alert_activity, assignAfterRead, alertStatusRead,
            halert, hst] using hinv
    | unassign u =>
      cases halert : db.alert with
      | none => simpa [applyAlertOp, unassign_alert_activity, halert] using hinv
      | some a =>
        by_cases hst : a.status = "assigned"
        · simp only [resInvB, halert, resAuxB, hst] at hinv
          simpa [applyAlertOp, unassign_alert_activity, halert, hst, log_status_change,
            resInvB, resAuxB] using hinv
        · simpa [applyAlertOp, unassign_alert_activity, halert, hst] using hinv
    | start u =>
      cases halert : db.alert with
      | none => simpa [applyAlertOp, start_alert_work_activity, halert] using hinv
      | some a =>
        by_cases hst : a.status = "assigned"
        · simp only [resInvB, halert, resAuxB, hst] at hinv
          simpa [applyAlertOp, start_alert_work_activity, halert, hst, log_status_change,
            resInvB, resAuxB] using hinv
        · simpa [applyAlertOp, start_alert_work_activity, halert, hst] using hinv
    | escalate b t r =>
      cases halert : db.alert with
      | none => simpa [applyAlertOp, escalate_alert_lifecycle_activity, halert] using hinv
      | some a =>
        by_cases hst : a.status = "in_progress"
        · by_cases hu : userExists db t
          · simp only [resInvB, halert, resAuxB, hst] at hinv
            simpa [applyAlertOp, escalate_alert_lifecycle_activity, halert, hst, hu,
              log_status_change, resInvB, resAuxB] using hinv
          · simpa [applyAlertOp, escalate_alert_lifecycle_activity, halert, hst, hu]
              using hinv
        · simpa [applyAlertOp, escalate_alert_lifecycle_activity, halert, hst] using hinv
    | hold u r =>
      cases halert : db.alert with
      | none => simpa [applyAlertOp, hold_alert_activity, halert] using hinv
      | some a =>
        by_cases hst : a.status = "in_progress"
        · simp only [resInvB, halert, resAuxB, hst] at hinv
          simpa [applyAlertOp, hold_alert_activity, halert, hst, log_status_change,
            resInvB, resAuxB] using hinv
        · simpa [applyAlertOp, hold_alert_activity, halert, hst] using hinv
    | resume u =>
      cases halert : db.alert with
      | none => simpa [applyAlertOp, resume_alert_activity, halert] using hinv
      | some a =>
        by_cases hst : a.status = "on_hold" ∨ a.status = "escalated"
        · have hsne : a.status ≠ "resolved" := by
            rcases hst with h | h <;> simp [h]
          simp only [resInvB, halert, resAuxB] at hinv
          rw [show (a.status == "resolved") = false by simpa using hsne] at hinv
          simpa [applyAlertOp, resume_alert_activity, halert, hst, log_status_change,
            resInvB, resAuxB] using hinv
        · simpa [applyAlertOp, resume_alert_activity, halert, hst] using hinv
    | resolve u ty n =>
      by_cases hty : ty ∈ RESOLUTION_TYPES
      · cases halert : db.alert with
        | none => simpa [applyAlertOp, resolve_alert_activity, hty, halert] using hinv
        | some a =>
          by_cases hst : a.status = "in_progress" ∨ a.status = "escalated" ∨
              a.status = "on_hold"
          · simp [applyAlertOp, resolve_alert_activity, hty, halert, hst,
              log_status_change, resInvB, resAuxB]
          · simpa [applyAlertOp, resolve_alert_activity, hty, halert, hst] using hinv
      · simpa [applyAlertOp, resolve_alert_activity, hty] using hinv
    | reopen u r =>
      cases halert : db.alert with
      | none => simpa [applyAlertOp, reopen_alert_activity, halert] using hinv
      | some a =>
        by_cases hst : a.status = "resolved"
        · simp [applyAlertOp, reopen_alert_activity, halert, hst, log_status_change,
            resInvB, resAuxB]
        · simpa [applyAlertOp, reopen_alert_activity, halert, hst] using hinv
    | addNote u c nt =>
      simpa [applyAlertOp, add_alert_note_activity, resInvB] using hinv
  refine ⟨step, ?_, ?_, ?_⟩
  · intro db ops
    induction ops generalizing db with
    | nil => intro h; simpa [runAlertOps] using h
    | cons op rest ih =>
      intro h
      have h1 := step db op h
      simpa [runAlertOps] using ih (applyAlertOp db op).2 h1
  · intro db a u ty n halert hsucc
    by_cases hty : ty ∈ RESOLUTION_TYPES
    · by_cases hst : a.status = "in_progress" ∨ a.status = "escalated" ∨ a.status = "on_hold"
      · simp [resolve_alert_activity, hty, halert, hst, log_status_change]
      · simp [resolve_alert_activity, hty, halert, hst] at hsucc
    · simp [resolve_alert_activity, hty] at hsucc
  · intro db a u r halert hsucc
    by_cases hst : a.status = "resolved"
    · simp [reopen_alert_activity, halert, hst, log_status_change]
    · simp [reopen_alert_activity, halert, hst] at hsucc

/-- Witness for the amended C8: the invariant holds on the resolved store and
is preserved by reopening it. -/
theorem claim8_witness :
    resInvB exDBresolved = true ∧
    resInvB (runAlertOps exDBresolved [AlertOp.reopen "u1" none]) = true :=
  ⟨by decide,
   claim8_resolution_fields_iff_resolved.2.1 exDBresolved [AlertOp.reopen "u1" none]
     (by decide)⟩

/-- Counterexample to C10 as stated: the assign UPDATE statement rewrites the
row to `assigned` even when the current status is `resolved` (its WHERE clause
carries no status guard), and in the interleaving of two assigns where both
status SELECTs run before either UPDATE, both calls pass the precondition and
the `open → assigned` transition is double-applied with two history rows. -/
theorem claim10_counterexample :
    (assignUpdateStmt exDBresolved "u1" "u1").alert.map (fun a => a.status) =
      some "assigned" ∧
    (interleavedAssigns exDBopen "u1" "u2").1.success = true ∧
    (interleavedAssigns exDBopen "u1" "u2").2.1.success = true ∧
    (interleavedAssigns exDBopen "u1" "u2").2.2.alertHistory.map
      (fun r => (r.previous_status, r.new_status)) =
      [("open", "assigned"), ("open", "assigned"), ("new", "open")] := by
  decide

/-- Claim C10 (amended): each activity performs its status check as a separate
SELECT followed by an UPDATE that is not conditioned on the current status —
the assign UPDATE rewrites the row to `assigned` whatever the status — so two
interleaved assigns on the same open alert can both pass the precondition and
the transition is applied twice, appending two `open → assigned` rows. -/
theorem claim10_read_then_write_race :
    (∀ (db : DB) (a : Alert) (u v : String), db.alert = some a →
      (assignUpdateStmt db u v).alert =
        some { a with
               status := "assigned"
               assigned_to := some u
               assigned_by := some v
               assigned_at := some db.now }) ∧
    (∀ (db : DB) (a : Alert) (u1 u2 : String), db.alert = some a →
      a.status = "open" → userExists db u1 = true → userExists db u2 = true →
      (interleavedAssigns db u1 u2).1.success = true ∧
      (interleavedAssigns db u1 u2).2.1.success = true ∧
      (interleavedAssigns db u1 u2).2.2.alertHistory =
        { previous_status := "open", new_status := "assigned",
          changed_by := u2, reason := none } ::
        { previous_status := "open", new_status := "assigned",
          changed_by := u1, reason := none } :: db.alertHistory) := by
  constructor
  · intro db a u v halert
    simp [assignUpdateStmt, halert]
  · intro db a u1 u2 halert hst hu1 hu2
    have key : ∀ (d : DB) (t : String), userExists d t = true →
        assignAfterRead d (some "open") t none =
          ({ success := true, status := some "assigned", assigned_to := some t },
           log_status_change (assignUpdateStmt d t t) "open" "assigned" t none) := by
      intro d t ht
      simp [assignAfterRead, ht, getValidUserId]
    have hu2b : userExists
        (log_status_change (assignUpdateStmt db u1 u1) "open" "assigned" u1 none) u2
        = true := hu2
    simp only [interleavedAssigns, alertStatusRead, halert, Option.map_some', hst,
      key db u1 hu1]
    simp only [key _ u2 hu2b]
    refine ⟨trivial, trivial, ?_⟩
    simp [log_status_change, assignUpdateStmt]

/-- Witness for the amended C10: the race realized on the concrete open store. -/
theorem claim10_witness :
    exDBopen.alert = some exAlertOpen ∧ exAlertOpen.status = "open" ∧
    userExists exDBopen "u1" = true ∧ userExists exDBopen "u2" = true ∧
    (interleavedAssigns exDBopen "u1" "u2").1.success = true ∧
    (interleavedAssigns exDBopen "u1" "u2").2.1.success = true :=
  ⟨rfl, rfl, by decide, by decide,
   (claim10_read_then_write_race.2 exDBopen exAlertOpen "u1" "u2" rfl rfl
     (by decide) (by decide)).1,
   (claim10_read_then_write_race.2 exDBopen exAlertOpen "u1" "u2" rfl rfl
     (by decide) (by decide)).2.1⟩

/-- Counterexample to C4 as stated: `update_task_status_activity`, a
task-mutating activity used by the business workflows, overwrites the status
of the completed task with `pending`. -/
theorem claim4_counterexample :
    (findTask exDBtaskCompleted 1).map (fun t => t.status) = some "completed" ∧
    (findTask (update_task_status_activity exDBtaskCompleted 1 "pending" none) 1).map
      (fun t => t.status) = some "pending" := by
  decide

/-- Claim C4 (amended): within the task lifecycle activities (claim, release,
complete, assign) a completed task is terminal — each rejects it with success
false and leaves the store unchanged, and complete on an already-completed
task fails with the explicit error message, never silently succeeds.  The
generic `update_task_status_activity` used by the business workflows is not
guarded and can overwrite a completed task's status. -/
theorem claim4_completed_terminal_for_lifecycle (db : DB) (t : Task) (tid : Nat)
    (u tgt b : String) (n : Option String)
    (hT : findTask db tid = some t) (hst : t.status = "completed") :
    (claim_task_activity db tid u).1.success = false ∧
    (claim_task_activity db tid u).2 = db ∧
    (release_task_activity db tid u).1.success = false ∧
    (release_task_activity db tid u).2 = db ∧
    (complete_task_activity db tid u n).1.success = false ∧
    (complete_task_activity db tid u n).1.error = some "Task is already completed" ∧
    (complete_task_activity db tid u n).2 = db ∧
    (assign_task_activity db tid tgt b).1.success = false ∧
    (assign_task_activity db tid tgt b).2 = db := by
  have hclaim : (claim_task_activity db tid u).1.success = false ∧
      (claim_task_activity db tid u).2 = db := by
    by_cases hu : userExists db u
    · by_cases hass : t.assigned_to ≠ none ∧ t.assigned_to ≠ some u
      · simp [claim_task_activity, hu, hT, hass]
      · simp [claim_task_activity, hu, hT, hass, hst]
    · simp [claim_task_activity, hu]
  have hrel : (release_task_activity db tid u).1.success = false ∧
      (release_task_activity db tid u).2 = db := by
    simp [release_task_activity, hT, hst]
  have hcomp : (complete_task_activity db tid u n).1.success = false ∧
      (complete_task_activity db tid u n).1.error = some "Task is already completed" ∧
      (complete_task_activity db tid u n).2 = db := by
    simp [complete_task_activity, hT, hst]
  have hassign : (assign_task_activity db tid tgt b).1.success = false ∧
      (assign_task_activity db tid tgt b).2 = db := by
    by_cases htgt : userExists db tgt
    · simp [assign_task_activity, htgt, hT, hst]
    · simp [assign_task_activity, htgt]
  exact ⟨hclaim.1, hclaim.2, hrel.1, hrel.2, hcomp.1, hcomp.2.1, hcomp.2.2,
    hassign.1, hassign.2⟩

/-- Witness for the amended C4: completing the already-completed task fails
with the explicit error and the store is unchanged. -/
theorem claim4_witness :
    (findTask exDBtaskCompleted 1).map (fun t => t.status) = some "completed" ∧
    (complete_task_activity exDBtaskCompleted 1 "u1" none).1.error =
      some "Task is already completed" ∧
    (complete_task_activity exDBtaskCompleted 1 "u1" none).2 = exDBtaskCompleted :=
  ⟨by decide,
   (claim4_completed_terminal_for_lifecycle exDBtaskCompleted
     { id := 1, status := "completed", completed_at := some 2,
       completed_by := some "u1@example.com" } 1 "u1" "u1" "u1" none rfl rfl).2.2.2.2.2.1,
   (claim4_completed_terminal_for_lifecycle exDBtaskCompleted
     { id := 1, status := "completed", completed_at := some 2,
       completed_by := some "u1@example.com" } 1 "u1" "u1" "u1" none rfl rfl).2.2.2.2.2.2.1⟩

/-- Counterexample to C9 as stated: a cancelled task (a reachable status, set
by the business workflows through the generic update) is not completed and is
unassigned, yet claiming it by an existing user fails; and a pending,
unassigned task cannot be claimed by a user id absent from the users table,
although the stated condition holds for it too. -/
theorem claim9_counterexample :
    (findTask exDBtaskCancelled 1).map (fun t => (t.status, t.assigned_to)) =
      some ("cancelled", none) ∧
    userExists exDBtaskCancelled "u1" = true ∧
    (claim_task_activity exDBtaskCancelled 1 "u1").1.success = false ∧
    (findTask exDBtaskPending 1).map (fun t => (t.status, t.assigned_to)) =
      some ("pending", none) ∧
    userExists exDBtaskPending "ghost" = false ∧
    (claim_task_activity exDBtaskPending 1 "ghost").1.success = false := by
  decide

/-- Claim C9 (amended): claim by user U succeeds exactly when U exists in the
users table, the task's status is pending or in progress, and the task is
unassigned or already assigned to U; on success the task is assigned to U and
moved to in progress, any failure leaves the store unchanged, and claiming a
task held by a different user fails with the conflict error. -/
theorem claim9_claim_task_characterization (db : DB) (t : Task) (tid : Nat)
    (u : String) (hT : findTask db tid = some t) :
    ((claim_task_activity db tid u).1.success = true ↔
      (userExists db u = true ∧ (t.status = "pending" ∨ t.status = "in_progress") ∧
        (t.assigned_to = none ∨ t.assigned_to = some u))) ∧
    ((claim_task_activity db tid u).1.success = true →
      findTask (claim_task_activity db tid u).2 tid =
        some { t with
               assigned_to := some u
               assigned_at := some db.now
               status := "in_progress" }) ∧
    ((claim_task_activity db tid u).1.success = false →
      (claim_task_activity db tid u).2 = db) ∧
    (∀ v, userExists db u = true → t.assigned_to = some v → v ≠ u →
      (claim_task_activity db tid u).1.error =
        some "Task already assigned to another user" ∧
      (claim_task_activity db tid u).2 = db) := by
  have hidt : (t.id == tid) = true := by
    have := List.find?_some hT
    simpa using this
  have hid : t.id = tid := by simpa using hidt
  by_cases hu : userExists db u
  case neg =>
    refine ⟨by simp [claim_task_activity, hu], by simp [claim_task_activity, hu],
      by simp [claim_task_activity, hu], ?_⟩
    intro v huT hv hvu
    exact absurd huT hu
  case pos =>
  have hsucc : ∀ _ : ¬ (t.assigned_to ≠ none ∧ t.assigned_to ≠ some u),
      ∀ _ : t.status = "pending" ∨ t.status = "in_progress",
      (claim_task_activity db tid u).2 =
        log_task_status_change (updateTaskRow db tid (fun x =>
          { x with
            assigned_to := some u
            assigned_at := some db.now
            status := "in_progress" })) tid t.status "in_progress" u
          (some "Task claimed") := by
    intro hx1 hst1
    simp [claim_task_activity, hu, hT, hx1, hst1]
  rcases hx : t.assigned_to with _ | v
  · have hxc : ¬ (t.assigned_to ≠ none ∧ t.assigned_to ≠ some u) := by simp [hx]
    by_cases hstat : t.status = "pending" ∨ t.status = "in_progress"
    · refine ⟨?_, ?_, ?_, ?_⟩
      · constructor
        · intro _
          exact ⟨hu, hstat, Or.inl rfl⟩
        · intro _
          simp [claim_task_activity, hu, hT, hxc, hstat]
      · intro _
        rw [hsucc hxc hstat]
        refine Eq.trans (findTask_updateTaskRow db tid tid _ (fun x => rfl)) ?_
        rw [hT]
        simp [hid]
      · intro hf
        simp [claim_task_activity, hu, hT, hxc, hstat] at hf
      · intro w _ hw _
        exact Option.noConfusion hw
    · refine ⟨?_, ?_, ?_, ?_⟩
      · constructor
        · intro h
          simp [claim_task_activity, hu, hT, hxc, hstat] at h
        · rintro ⟨_, hs, _⟩
          exact absurd hs hstat
      · intro h
        simp [claim_task_activity, hu, hT, hxc, hstat] at h
      · intro _
        simp [claim_task_activity, hu, hT, hxc, hstat]
      · intro w _ hw _
        exact Option.noConfusion hw
  · by_cases hvu : v = u
    · have hxc : ¬ (t.assigned_to ≠ none ∧ t.assigned_to ≠ some u) := by
        simp [hx, hvu]
      by_cases hstat : t.status = "pending" ∨ t.status = "in_progress"
      · refine ⟨?_, ?_, ?_, ?_⟩
        · constructor
          · intro _
            exact ⟨hu, hstat, Or.inr (by rw [hvu])⟩
          · intro _
            simp [claim_task_activity, hu, hT, hxc, hstat]
        · intro _
          rw [hsucc hxc hstat]
          refine Eq.trans (findTask_updateTaskRow db tid tid _ (fun x => rfl)) ?_
          rw [hT]
          simp [hid]
        · intro hf
          simp [claim_task_activity, hu, hT, hxc, hstat] at hf
        · intro w _ hw hwu
          injection hw with hw1
          exact absurd (hw1.symm.trans hvu) hwu
      · refine ⟨?_, ?_, ?_, ?_⟩
        · constructor
          · intro h
            simp [claim_task_activity, hu, hT, hxc, hstat] at h
          · rintro ⟨_, hs, _⟩
            exact absurd hs hstat
        · intro h
          simp [claim_task_activity, hu, hT, hxc, hstat] at h
        · intro _
          simp [claim_task_activity, hu, hT, hxc, hstat]
        · intro w _ hw hwu
          injection hw with hw1
          exact absurd (hw1.symm.trans hvu) hwu
    · have hxc : t.assigned_to ≠ none ∧ t.assigned_to ≠ some u := by
        rw [hx]
        refine ⟨by simp, ?_⟩
        simp only [ne_eq, Option.some.injEq]
        exact hvu
      refine ⟨?_, ?_, ?_, ?_⟩
      · constructor
        · intro h
          simp [claim_task_activity, hu, hT, hxc] at h
        · rintro ⟨_, _, h3 | h3⟩
          · exact Option.noConfusion h3
          · injection h3 with h4
            exact absurd h4 hvu
      · intro h
        simp [claim_task_activity, hu, hT, hxc] at h
      · intro _
        simp [claim_task_activity, hu, hT, hxc]
      · intro w _ _ _
        exact ⟨by simp [claim_task_activity, hu, hT, hxc],
               by simp [claim_task_activity, hu, hT, hxc]⟩

/-- A chained, valid history with matching head stays so after appending a row
that starts at the current status. -/
theorem alertInv_append_aux (hist : List AlertHistRow) (st : String) (row : AlertHistRow)
    (hchain : chainA hist = true) (hall : hist.all alertRowOK = true)
    (hhead : headMatchesA hist st = true)
    (hprev : row.previous_status = st) (hok : alertRowOK row = true) :
    chainA (row :: hist) = true ∧ (row :: hist).all alertRowOK = true ∧
      headMatchesA (row :: hist) row.new_status = true := by
  refine ⟨?_, ?_, ?_⟩
  · simp only [chainA, Bool.and_eq_true]
    exact ⟨by rw [hprev]; exact hhead, hchain⟩
  · simp [List.all_cons, hok, hall]
  · simp [headMatchesA]

/-- A successful alert lifecycle action (other than add-note) rewrites the
alert row and appends exactly one history row whose previous status is the
pre-call status, whose new status is the post-call status, and which realizes
a listed transition. -/
theorem applyAlertOp_success_shape (db : DB) (op : AlertOp) (vf : List String)
    (hvf : actionValidFrom op = some vf)
    (hsucc : (applyAlertOp db op).1.success = true) :
    ∃ a a2 row, db.alert = some a ∧
      (applyAlertOp db op).2 =
        { db with alert := some a2, alertHistory := row :: db.alertHistory } ∧
      row.previous_status = a.status ∧ row.new_status = a2.status ∧
      alertRowOK row = true := by
  cases op with
  | assign t b =>
    cases halert : db.alert with
    | none =>
      simp [applyAlertOp, assign_alert_activity, assignAfterRead, alertStatusRead,
        halert] at hsucc
    | some a =>
      by_cases hst : a.status = "open"
      · by_cases hu : userExists db t
        · refine ⟨a,
            { a with
              status := "assigned"
              assigned_to := some t
              assigned_by := some (getValidUserId db (b.getD t))
              assigned_at := some db.now },
            ⟨a.status, "assigned", getValidUserId db (b.getD t), none⟩,
            rfl, ?_, rfl, rfl, ?_⟩
          · simp [applyAlertOp, assign_alert_activity, assignAfterRead, alertStatusRead,
              halert, hst, hu, assignUpdateStmt, log_status_change]
          · simp [alertRowOK, ALERT_STATUS_TRANSITIONS, hst]
        · simp [applyAlertOp, assign_alert_activity, assignAfterRead, alertStatusRead,
            halert, hst, hu] at hsucc
      · simp [applyAlertOp, assign_alert_activity, assignAfterRead, alertStatusRead,
          halert, hst] at hsucc
  | unassign u =>
    cases halert : db.alert with
    | none => simp [applyAlertOp, unassign_alert_activity, halert] at hsucc
    | some a =>
      by_cases hst : a.status = "assigned"
      · refine ⟨a,
          { a with
            status := "open"
            assigned_to := none
            assigned_by := none
            assigned_at := none },
          ⟨a.status, "open", getValidUserId db u, some "Unassigned"⟩,
          rfl, ?_, rfl, rfl, ?_⟩
        · simp [applyAlertOp, unassign_alert_activity, halert, hst, log_status_change]
        · simp [alertRowOK, ALERT_STATUS_TRANSITIONS, hst]
      · simp [applyAlertOp, unassign_alert_activity, halert, hst] at hsucc
  | start u =>
    cases halert : db.alert with
    | none => simp [applyAlertOp, start_alert_work_activity, halert] at hsucc
    | some a =>
      by_cases hst : a.status = "assigned"
      · refine ⟨a, { a with status := "in_progress" },
          ⟨a.status, "in_progress", getValidUserId db u, some "Started work"⟩,
          rfl, ?_, rfl, rfl, ?_⟩
        · simp [applyAlertOp, start_alert_work_activity, halert, hst, log_status_change]
        · simp [alertRowOK, ALERT_STATUS_TRANSITIONS, hst]
      · simp [applyAlertOp, start_alert_work_activity, halert, hst] at hsucc
  | escalate b t r =>
    cases halert : db.alert with
    | none => simp [applyAlertOp, escalate_alert_lifecycle_activity, halert] at hsucc
    | some a =>
      by_cases hst : a.status = "in_progress"
      · by_cases hu : userExists db t
        · refine ⟨a,
            { a with
              status := "escalated"
              escalated_to := some t
              escalated_by := some (getValidUserId db b)
              escalated_at := some db.now
              escalation_reason := some r },
            ⟨a.status, "escalated", getValidUserId db b, some r⟩,
            rfl, ?_, rfl, rfl, ?_⟩
          · simp [applyAlertOp, escalate_alert_lifecycle_activity, halert, hst, hu,
              log_status_change]
          · simp [alertRowOK, ALERT_STATUS_TRANSITIONS, hst]
        · simp [applyAlertOp, escalate_alert_lifecycle_activity, halert, hst, hu] at hsucc
      · simp [applyAlertOp, escalate_alert_lifecycle_activity, halert, hst] at hsucc
  | hold u r =>
    cases halert : db.alert with
    | none => simp [applyAlertOp, hold_alert_activity, halert] at hsucc
    | some a =>
      by_cases hst : a.status = "in_progress"
      · refine ⟨a, { a with status := "on_hold" },
          ⟨a.status, "on_hold", getValidUserId db u, some (r.getD "Put on hold")⟩,
          rfl, ?_, rfl, rfl, ?_⟩
        · simp [applyAlertOp, hold_alert_activity, halert, hst, log_status_change]
        · simp [alertRowOK, ALERT_STATUS_TRANSITIONS, hst]
      · simp [applyAlertOp, hold_alert_activity, halert, hst] at hsucc
  | resume u =>
    cases halert : db.alert with
    | none => simp [applyAlertOp, resume_alert_activity, halert] at hsucc
    | some a =>
      by_cases hst : a.status = "on_hold" ∨ a.status = "escalated"
      · refine ⟨a, { a with status := "in_progress" },
          ⟨a.status, "in_progress", getValidUserId db u, some "Resumed work"⟩,
          rfl, ?_, rfl, rfl, ?_⟩
        · simp [applyAlertOp, resume_alert_activity, halert, hst, log_status_change]
        · rcases hst with h | h <;>
            simp [alertRowOK, ALERT_STATUS_TRANSITIONS, h]
      · simp [applyAlertOp, resume_alert_activity, halert, hst] at hsucc
  | resolve u ty n =>
    by_cases hty : ty ∈ RESOLUTION_TYPES
    · cases halert : db.alert with
      | none => simp [applyAlertOp, resolve_alert_activity, hty, halert] at hsucc
      | some a =>
        by_cases hst : a.status = "in_progress" ∨ a.status = "escalated" ∨
            a.status = "on_hold"
        · refine ⟨a,
            { a with
              status := "resolved"
              resolution_type := some ty
              resolution_notes := n
              resolved_by := some u
              resolved_at := some db.now },
            ⟨a.status, "resolved", getValidUserId db u, n⟩,
            rfl, ?_, rfl, rfl, ?_⟩
          · simp [applyAlertOp, resolve_alert_activity, hty, halert, hst,
              log_status_change]
          · rcases hst with h | h | h <;>
              simp [alertRowOK, ALERT_STATUS_TRANSITIONS, h]
        · simp [applyAlertOp, resolve_alert_activity, hty, halert, hst] at hsucc
    · simp [applyAlertOp, resolve_alert_activity, hty] at hsucc
  | reopen u r =>
    cases halert : db.alert with
    | none => simp [applyAlertOp, reopen_alert_activity, halert] at hsucc
    | some a =>
      by_cases hst : a.status = "resolved"
      · refine ⟨a,
          { a with
            status := "open"
            assigned_to := none
            assigned_by := none
            assigned_at := none
            resolution_type := none
            resolved_by := none
            resolved_at := none },
          ⟨a.status, "open", getValidUserId db u, some (r.getD "Reopened")⟩,
          rfl, ?_, rfl, rfl, ?_⟩
        · simp [applyAlertOp, reopen_alert_activity, halert, hst, log_status_change]
        · simp [alertRowOK, ALERT_STATUS_TRANSITIONS, hst]
      · simp [applyAlertOp, reopen_alert_activity, halert, hst] at hsucc
  | addNote u c nt =>
    simp [actionValidFrom] at hvf

/-- A failed alert lifecycle action leaves the store untouched. -/
theorem applyAlertOp_failure_noop (db : DB) (op : AlertOp)
    (hfail : (applyAlertOp db op).1.success = false) :
    (applyAlertOp db op).2 = db := by
  cases op with
  | assign t b =>
    cases halert : db.alert with
    | none =>
      simp [applyAlertOp, assign_alert_activity, assignAfterRead, alertStatusRead, halert]
    | some a =>
      by_cases hst : a.status = "open"
      · by_cases hu : userExists db t
        · simp [applyAlertOp, assign_alert_activity, assignAfterRead, alertStatusRead,
            halert, hst, hu] at hfail
        · simp [applyAlertOp, assign_alert_activity, assignAfterRead, alertStatusRead,
            halert, hst, hu]
      · simp [applyAlertOp, assign_alert_activity, assignAfterRead, alertStatusRead,
          halert, hst]
  | unassign u =>
    cases halert : db.alert with
    | none => simp [applyAlertOp, unassign_alert_activity, halert]
    | some a =>
      by_cases hst : a.status = "assigned"
      · simp [applyAlertOp, unassign_alert_activity, halert, hst] at hfail
      · simp [applyAlertOp, unassign_alert_activity, halert, hst]
  | start u =>
    cases halert : db.alert with
    | none => simp [applyAlertOp, start_alert_work_activity, halert]
    | some a =>
      by_cases hst : a.status = "assigned"
      · simp [applyAlertOp, start_alert_work_activity, halert, hst] at hfail
      · simp [applyAlertOp, start_alert_work_activity, halert, hst]
  | escalate b t r =>
    cases halert : db.alert with
    | none => simp [applyAlertOp, escalate_alert_lifecycle_activity, halert]
    | some a =>
      by_cases hst : a.status = "in_progress"
      · by_cases hu : userExists db t
        · simp [applyAlertOp, escalate_alert_lifecycle_activity, halert, hst, hu] at hfail
        · simp [applyAlertOp, escalate_alert_lifecycle_activity, halert, hst, hu]
      · simp [applyAlertOp, escalate_alert_lifecycle_activity, halert, hst]
  | hold u r =>
    cases halert : db.alert with
    | none => simp [applyAlertOp, hold_alert_activity, halert]
    | some a =>
      by_cases hst : a.status = "in_progress"
      · simp [applyAlertOp, hold_alert_activity, halert, hst] at hfail
      · simp [applyAlertOp, hold_alert_activity, halert, hst]
  | resume u =>
    cases halert : db.alert with
    | none => simp [applyAlertOp, resume_alert_activity, halert]
    | some a =>
      by_cases hst : a.status = "on_hold" ∨ a.status = "escalated"
      · simp [applyAlertOp, resume_alert_activity, halert, hst] at hfail
      · simp [applyAlertOp, resume_alert_activity, halert, hst]
  | resolve u ty n =>
    by_cases hty : ty ∈ RESOLUTION_TYPES
    · cases halert : db.alert with
      | none => simp [applyAlertOp, resolve_alert_activity, hty, halert]
      | some a =>
        by_cases hst : a.status = "in_progress" ∨ a.status = "escalated" ∨
            a.status = "on_hold"
        · simp [applyAlertOp, resolve_alert_activity, hty, halert, hst] at hfail
        · simp [applyAlertOp, resolve_alert_activity, hty, halert, hst]
    · simp [applyAlertOp, resolve_alert_activity, hty]
  | reopen u r =>
    cases halert : db.alert with
    | none => simp [applyAlertOp, reopen_alert_activity, halert]
    | some a =>
      by_cases hst : a.status = "resolved"
      · simp [applyAlertOp, reopen_alert_activity, halert, hst] at hfail
      · simp [applyAlertOp, reopen_alert_activity, halert, hst]
  | addNote u c nt =>
    simp [applyAlertOp, add_alert_note_activity] at hfail

/-- Every alert lifecycle action preserves the audit-trail invariant. -/
theorem alertInvB_step (db : DB) (op : AlertOp) (hinv : alertInvB db = true) :
    alertInvB (applyAlertOp db op).2 = true := by
  cases hvf : actionValidFrom op with
  | none =>
    cases op <;> first
      | simpa [applyAlertOp, add_alert_note_activity, alertInvB] using hinv
      | simp [actionValidFrom] at hvf
  | some vf =>
    by_cases hsucc : (applyAlertOp db op).1.success = true
    · obtain ⟨a, a2, row, halert, heq, hprev, hnew, hok⟩ :=
        applyAlertOp_success_shape db op vf hvf hsucc
      rw [heq]
      simp only [alertInvB, halert, Bool.and_eq_true] at hinv
      obtain ⟨⟨h1, h2⟩, h3⟩ := hinv
      obtain ⟨g1, g2, g3⟩ :=
        alertInv_append_aux db.alertHistory a.status row h1 h2 h3 hprev hok
      simp only [alertInvB, Bool.and_eq_true]
      exact ⟨⟨g1, g2⟩, by rw [← hnew]; exact g3⟩
    · rw [applyAlertOp_failure_noop db op (by simpa using hsucc)]
      exact hinv

/-- Witness for the amended C9: u1 claims the pending unassigned task and it
becomes assigned to u1 and in progress. -/
theorem claim9_witness :
    findTask exDBtaskPending 1 = some { id := 1, status := "pending" } ∧
    (claim_task_activity exDBtaskPending 1 "u1").1.success = true ∧
    findTask (claim_task_activity exDBtaskPending 1 "u1").2 1 =
      some { id := 1
             status := "in_progress"
             assigned_to := some "u1"
             assigned_at := some 3 } :=
  ⟨rfl,
   (claim9_claim_task_characterization exDBtaskPending { id := 1, status := "pending" }
     1 "u1" rfl).1.mpr ⟨by decide, Or.inl rfl, Or.inl rfl⟩,
   by
     have h2 := (claim9_claim_task_characterization exDBtaskPending
       { id := 1, status := "pending" } 1 "u1" rfl).2.1
       ((claim9_claim_task_characterization exDBtaskPending
         { id := 1, status := "pending" } 1 "u1" rfl).1.mpr
         ⟨by decide, Or.inl rfl, Or.inl rfl⟩)
     simpa using h2⟩

/-- A head that matches a status also links to it. -/
theorem headLinkT_of_headMatchesT (hist : List TaskHistRow) (st : String)
    (h : headMatchesT hist st = true) : headLinkT hist st = true := by
  cases hist <;> simp_all [headMatchesT, headLinkT]

/-- A chained, valid task history with matching head stays so after appending a
row that starts at the current status. -/
theorem taskInvAux_append (t t2 : Task) (hist : List TaskHistRow) (row : TaskHistRow)
    (hinv : taskInvAux (some t) hist = true) (hprev : row.previous_status = t.status)
    (hnew : row.new_status = t2.status) (hok : taskRowOKext row = true) :
    taskInvAux (some t2) (row :: hist) = true := by
  simp only [taskInvAux, Bool.and_eq_true] at hinv ⊢
  obtain ⟨⟨hchain, hall⟩, hhead⟩ := hinv
  refine ⟨⟨?_, ?_⟩, ?_⟩
  · simp only [chainT, Bool.and_eq_true]
    exact ⟨by rw [hprev]; exact headLinkT_of_headMatchesT hist t.status hhead, hchain⟩
  · simp [List.all_cons, hok, hall]
  · simp [headMatchesT, hnew]

/-- The new status of any row in the extended task relation is one of the
three lifecycle statuses. -/
theorem taskRowOKext_new_cases (r : TaskHistRow) (h : taskRowOKext r = true) :
    r.new_status = "pending" ∨ r.new_status = "in_progress" ∨
      r.new_status = "completed" := by
  simp only [taskRowOKext, Bool.or_eq_true, Bool.and_eq_true] at h
  rcases h with (h | h) | h
  · have hmem : r.new_status ∈ TASK_STATUS_TRANSITIONS r.previous_status := by
      simpa using h
    unfold TASK_STATUS_TRANSITIONS at hmem
    split at hmem
    · right; left; simpa using hmem
    · rcases (by simpa using hmem : r.new_status = "pending" ∨
        r.new_status = "completed") with h2 | h2
      · exact Or.inl h2
      · exact Or.inr (Or.inr h2)
    · simp at hmem
    · simp at hmem
  · right; left; simpa using h.2
  · right; right; simpa using h.2

/-- Under the task invariant, the visible status is one of the three lifecycle
statuses. -/
theorem taskInv_status_cases (t : Task) (hist : List TaskHistRow)
    (h : taskInvAux (some t) hist = true) :
    t.status = "pending" ∨ t.status = "in_progress" ∨ t.status = "completed" := by
  simp only [taskInvAux, Bool.and_eq_true] at h
  obtain ⟨⟨_, hall⟩, hhead⟩ := h
  cases hist with
  | nil =>
    left
    simpa [headMatchesT] using hhead
  | cons r rest =>
    have hok : taskRowOKext r = true := by
      simp only [List.all_cons, Bool.and_eq_true] at hall
      exact hall.1
    have hst : r.new_status = t.status := by simpa [headMatchesT] using hhead
    rw [← hst]
    exact taskRowOKext_new_cases r hok

/-- Appending a history row for a task extends that task's history. -/
theorem taskHistFor_log_same (db : DB) (tid : Nat) (p q r : String) (s : Option String) :
    taskHistFor (log_task_status_change db tid p q r s) tid =
      { task_id := tid, previous_status := p, new_status := q, changed_by := r,
        reason := s } :: taskHistFor db tid := by
  simp [taskHistFor, log_task_status_change, List.filter_cons]

/-- Appending a history row for another task leaves this task's history. -/
theorem taskHistFor_log_other (db : DB) (tid' tid : Nat) (p q r : String)
    (s : Option String) (htid : ¬ tid' = tid) :
    taskHistFor (log_task_status_change db tid' p q r s) tid = taskHistFor db tid := by
  simp [taskHistFor, log_task_status_change, List.filter_cons, htid]

/-- History rows are untouched by task-row updates. -/
theorem taskHistFor_update (db : DB) (tid' tid : Nat) (g : Task → Task) :
    taskHistFor (updateTaskRow db tid' g) tid = taskHistFor db tid := rfl

/-- Task lookup is untouched by history inserts. -/
theorem findTask_log (db : DB) (tid' tid : Nat) (p q r : String) (s : Option String) :
    findTask (log_task_status_change db tid' p q r s) tid = findTask db tid := rfl

/-- Updating a different task row does not change the lookup. -/
theorem findTask_update_other (db : DB) (tid' tid : Nat) (g : Task → Task)
    (hg : ∀ x, (g x).id = x.id) (htid : ¬ tid' = tid) :
    findTask (updateTaskRow db tid' g) tid = findTask db tid := by
  rw [findTask_updateTaskRow db tid tid' g hg]
  cases hT2 : findTask db tid with
  | none => rfl
  | some t0 =>
    have hid : t0.id = tid := by simpa using List.find?_some hT2
    have hid' : (t0.id == tid') = false := by
      simp only [hid, beq_eq_false_iff_ne, ne_eq]
      exact fun h => htid h.symm
    simp only [hid', Option.map_some']
    simp only [show (t0.id == tid') = false from hid', Bool.false_eq_true, if_false]

/-- Updating the looked-up task row transforms exactly that row. -/
theorem findTask_update_same (db : DB) (tid : Nat) (g : Task → Task) (t : Task)
    (hg : ∀ x, (g x).id = x.id) (hT : findTask db tid = some t) :
    findTask (updateTaskRow db tid g) tid = some (g t) := by
  rw [findTask_updateTaskRow db tid tid g hg, hT]
  have hid : (t.id == tid) = true := by simpa using List.find?_some hT
  simp only [Option.map_some', hid, if_true]

/-- Invariant transport for an update-and-log of the tracked task. -/
theorem taskInvB_log_update_same (db : DB) (tid : Nat) (task : Task) (g : Task → Task)
    (hg : ∀ x, (g x).id = x.id) (hT : findTask db tid = some task)
    (hinv : taskInvB db tid = true) (q r : String) (s : Option String)
    (hnew : q = (g task).status)
    (hok : taskRowOKext ⟨tid, task.status, q, r, s⟩ = true) :
    taskInvB (log_task_status_change (updateTaskRow db tid g) tid task.status q r s) tid
      = true := by
  have hinv' : taskInvAux (some task) (taskHistFor db tid) = true := by
    simpa [taskInvB, hT] using hinv
  simp only [taskInvB, findTask_log, taskHistFor_log_same, taskHistFor_update,
    findTask_update_same db tid g task hg hT]
  exact taskInvAux_append task (g task) (taskHistFor db tid) _ hinv' rfl hnew hok

/-- Invariant transport for an update-and-log of a different task. -/
theorem taskInvB_log_update_other (db : DB) (tid' tid : Nat) (g : Task → Task)
    (hg : ∀ x, (g x).id = x.id) (htid : ¬ tid' = tid)
    (hinv : taskInvB db tid = true) (p q r : String) (s : Option String) :
    taskInvB (log_task_status_change (updateTaskRow db tid' g) tid' p q r s) tid
      = true := by
  simp only [taskInvB, findTask_log, taskHistFor_update,
    taskHistFor_log_other _ _ _ _ _ _ _ htid,
    findTask_update_other db tid' tid g hg htid]
  simpa [taskInvB] using hinv

/-- Invariant transport for a status-preserving update with no history row. -/
theorem taskInvB_update_only (db : DB) (tid' tid : Nat) (g : Task → Task)
    (hg : ∀ x, (g x).id = x.id)
    (hstf : ∀ t0, findTask db tid' = some t0 → (g t0).status = t0.status)
    (hinv : taskInvB db tid = true) :
    taskInvB (updateTaskRow db tid' g) tid = true := by
  by_cases htid : tid' = tid
  · subst htid
    cases hT : findTask db tid' with
    | none =>
      simp only [taskInvB, taskHistFor_update]
      rw [findTask_updateTaskRow db tid' tid' g hg, hT]
      simpa [taskInvB, hT] using hinv
    | some t0 =>
      simp only [taskInvB, taskHistFor_update, findTask_update_same db tid' g t0 hg hT]
      have hs := hstf t0 hT
      have hinv' : taskInvAux (some t0) (taskHistFor db tid') = true := by
        simpa [taskInvB, hT] using hinv
      simpa [taskInvAux, hs] using hinv'
  · simp only [taskInvB, taskHistFor_update, findTask_update_other db tid' tid g hg htid]
    simpa [taskInvB] using hinv

/-- Every task lifecycle action preserves the task audit-trail invariant. -/
theorem taskInvB_step (db : DB) (tid : Nat) (top : TaskOp)
    (hinv : taskInvB db tid = true) : taskInvB (applyTaskOp db top).2 tid = true := by
  cases top with
  | claim tid' u =>
    by_cases hu : userExists db u
    · cases hT : findTask db tid' with
      | none => simpa [applyTaskOp, claim_task_activity, hu, hT] using hinv
      | some task =>
        by_cases hass : task.assigned_to ≠ none ∧ task.assigned_to ≠ some u
        · simpa [applyTaskOp, claim_task_activity, hu, hT, hass] using hinv
        · by_cases hstat : task.status = "pending" ∨ task.status = "in_progress"
          · have h2 : (applyTaskOp db (TaskOp.claim tid' u)).2 =
                log_task_status_change (updateTaskRow db tid' (fun x =>
                  { x with
                    assigned_to := some u
                    assigned_at := some db.now
                    status := "in_progress" })) tid' task.status "in_progress" u
                  (some "Task claimed") := by
              simp [applyTaskOp, claim_task_activity, hu, hT, hass, hstat]
            rw [h2]
            by_cases htid : tid' = tid
            · subst htid
              exact taskInvB_log_update_same db tid' task
                (fun x => { x with
                  assigned_to := some u
                  assigned_at := some db.now
                  status := "in_progress" }) (fun x => rfl) hT hinv
                "in_progress" u (some "Task claimed") rfl
                (by rcases hstat with h | h <;>
                  simp [taskRowOKext, TASK_STATUS_TRANSITIONS, h])
            · exact taskInvB_log_update_other db tid' tid
                (fun x => { x with
                  assigned_to := some u
                  assigned_at := some db.now
                  status := "in_progress" }) (fun x => rfl) htid hinv
                task.status "in_progress" u (some "Task claimed")
          · simpa [applyTaskOp, claim_task_activity, hu, hT, hass, hstat] using hinv
    · simpa [applyTaskOp, claim_task_activity, hu] using hinv
  | release tid' u =>
    cases hT : findTask db tid' with
    | none => simpa [applyTaskOp, release_task_activity, hT] using hinv
    | some task =>
      by_cases hst : task.status = "in_progress"
      · have h2 : (applyTaskOp db (TaskOp.release tid' u)).2 =
            log_task_status_change (updateTaskRow db tid' (fun x =>
              { x with
                assigned_to := none
                assigned_by := none
                assigned_at := none
                status := "pending" })) tid' task.status "pending"
              (getValidUserId db u) (some "Task released back to queue") := by
          simp [applyTaskOp, release_task_activity, hT, hst]
        rw [h2]
        by_cases htid : tid' = tid
        · subst htid
          exact taskInvB_log_update_same db tid' task
            (fun x => { x with
              assigned_to := none
              assigned_by := none
              assigned_at := none
              status := "pending" }) (fun x => rfl) hT hinv
            "pending" (getValidUserId db u) (some "Task released back to queue") rfl
            (by simp [taskRowOKext, TASK_STATUS_TRANSITIONS, hst])
        · exact taskInvB_log_update_other db tid' tid
            (fun x => { x with
              assigned_to := none
              assigned_by := none
              assigned_at := none
              status := "pending" }) (fun x => rfl) htid hinv
            task.status "pending" (getValidUserId db u)
            (some "Task released back to queue")
      · simpa [applyTaskOp, release_task_activity, hT, hst] using hinv
  | complete tid' u n =>
    cases hT : findTask db tid' with
    | none => simpa [applyTaskOp, complete_task_activity, hT] using hinv
    | some task =>
      by_cases hst : task.status = "completed"
      · simpa [applyTaskOp, complete_task_activity, hT, hst] using hinv
      · have h2 : (applyTaskOp db (TaskOp.complete tid' u n)).2 =
            log_task_status_change (updateTaskRow db tid' (fun x =>
              { x with
                status := "completed"
                completed_at := some db.now
                completed_by := some
                  (match db.users.find? (fun u2 => u2.id == getValidUserId db u) with
                   | some u2 => u2.email
                   | none => getValidUserId db u)
                resolution_notes :=
                  match n with
                  | some m => some m
                  | none => x.resolution_notes })) tid' task.status "completed"
              (getValidUserId db u) (some (n.getD "Task completed")) := by
          simp [applyTaskOp, complete_task_activity, hT, hst]
        rw [h2]
        by_cases htid : tid' = tid
        · subst htid
          have hinv' : taskInvAux (some task) (taskHistFor db tid') = true := by
            simpa [taskInvB, hT] using hinv
          have hcases := taskInv_status_cases task _ hinv'
          refine taskInvB_log_update_same db tid' task ?_ ?_ hT hinv
            "completed" (getValidUserId db u) (some (n.getD "Task completed")) ?_ ?_
          · exact fun x => rfl
          · rfl
          · rcases hcases with h | h | h
            · simp [taskRowOKext, TASK_STATUS_TRANSITIONS, h]
            · simp [taskRowOKext, TASK_STATUS_TRANSITIONS, h]
            · exact absurd h hst
        · refine taskInvB_log_update_other db tid' tid ?_ ?_ htid hinv
            task.status "completed" (getValidUserId db u) (some (n.getD "Task completed"))
          exact fun x => rfl
  | assign tid' tgt b =>
    by_cases htgt : userExists db tgt
    · cases hT : findTask db tid' with
      | none => simpa [applyTaskOp, assign_task_activity, htgt, hT] using hinv
      | some task =>
        by_cases hcomp : task.status = "completed"
        · simpa [applyTaskOp, assign_task_activity, htgt, hT, hcomp] using hinv
        · by_cases hpend : task.status = "pending"
          · have h2 : (applyTaskOp db (TaskOp.assign tid' tgt b)).2 =
                log_task_status_change (updateTaskRow db tid' (fun x =>
                  { x with
                    assigned_to := some tgt
                    assigned_by := some (getValidUserId db b)
                    assigned_at := some db.now
                    status := if x.status = "pending" then "in_progress" else x.status }))
                  tid' task.status "in_progress" (getValidUserId db b)
                  (some "Assigned to user") := by
              simp [applyTaskOp, assign_task_activity, htgt, hT, hcomp, hpend]
            rw [h2]
            by_cases htid : tid' = tid
            · subst htid
              exact taskInvB_log_update_same db tid' task
                (fun x => { x with
                  assigned_to := some tgt
                  assigned_by := some (getValidUserId db b)
                  assigned_at := some db.now
                  status := if x.status = "pending" then "in_progress" else x.status })
                (fun x => rfl) hT hinv
                "in_progress" (getValidUserId db b) (some "Assigned to user")
                (by simp [hpend])
                (by simp [taskRowOKext, TASK_STATUS_TRANSITIONS, hpend])
            · exact taskInvB_log_update_other db tid' tid
                (fun x => { x with
                  assigned_to := some tgt
                  assigned_by := some (getValidUserId db b)
                  assigned_at := some db.now
                  status := if x.status = "pending" then "in_progress" else x.status })
                (fun x => rfl) htid hinv
                task.status "in_progress" (getValidUserId db b) (some "Assigned to user")
          · have h2 : (applyTaskOp db (TaskOp.assign tid' tgt b)).2 =
                updateTaskRow db tid' (fun x =>
                  { x with
                    assigned_to := some tgt
                    assigned_by := some (getValidUserId db b)
                    assigned_at := some db.now
                    status := if x.status = "pending" then "in_progress" else x.status })
                := by
              simp [applyTaskOp, assign_task_activity, htgt, hT, hcomp, hpend]
            rw [h2]
            refine taskInvB_update_only db tid' tid
              (fun x => { x with
                assigned_to := some tgt
                assigned_by := some (getValidUserId db b)
                assigned_at := some db.now
                status := if x.status = "pending" then "in_progress" else x.status })
              (fun x => rfl) ?_ hinv
            intro t0 h0
            rw [hT] at h0
            injection h0 with h0
            subst h0
            simp [hpend]
    · simpa [applyTaskOp, assign_task_activity, htgt] using hinv

/-- Counterexample to C3 as stated: completing the pending, never-claimed task
writes a history row `pending → completed`, which is not a listed transition
of the task state machine; and replaying alert initialization (explicitly
allowed by the spec, and unguarded in the code) appends a second `new → open`
row that breaks the path property and leaves the newest row disagreeing with
the alert's current status. -/
theorem claim3_counterexample :
    ((complete_task_activity exDBtaskPending 1 "u1" none).2.taskHistory.map
      (fun r => (r.previous_status, r.new_status)) = [("pending", "completed")]) ∧
    ((TASK_STATUS_TRANSITIONS "pending").contains "completed" = false) ∧
    (chainA (init_alert_activity (applyAlertOp (init_alert_activity exDBfresh).2
      (AlertOp.assign "u1" none)).2).2.alertHistory = false) ∧
    ((init_alert_activity (applyAlertOp (init_alert_activity exDBfresh).2
      (AlertOp.assign "u1" none)).2).2.alert.map (fun a => a.status) =
      some "assigned") ∧
    ((init_alert_activity (applyAlertOp (init_alert_activity exDBfresh).2
      (AlertOp.assign "u1" none)).2).2.alertHistory.head?.map
      (fun r => r.new_status) = some "open") := by
  decide

/-- Claim C3 (amended): for alerts, over any sequence of lifecycle actions
(init being run once, at creation), the history stays a chained path whose
rows are listed transitions (after the initial `new → open` row) and whose
newest row matches the alert's current status, and every successful
status-changing activity appends exactly one row with previous status equal
to the pre-call status and new status equal to the post-call status.  For
tasks, the same invariant holds for the lifecycle actions claim, release,
complete and assign with the transition relation extended by the two edges
the code actually writes: the re-claim self-loop `in_progress → in_progress`
and the direct `pending → completed` of completing an unclaimed task. -/
theorem claim3_amended_audit_trail :
    (∀ (db : DB) (op : AlertOp), alertInvB db = true →
      alertInvB (applyAlertOp db op).2 = true) ∧
    (∀ (db : DB) (ops : List AlertOp), alertInvB db = true →
      alertInvB (runAlertOps db ops) = true) ∧
    (∀ (db : DB) (op : AlertOp) (vf : List String), actionValidFrom op = some vf →
      (applyAlertOp db op).1.success = true →
      ∃ a a2 row, db.alert = some a ∧
        (applyAlertOp db op).2.alert = some a2 ∧
        (applyAlertOp db op).2.alertHistory = row :: db.alertHistory ∧
        row.previous_status = a.status ∧ row.new_status = a2.status ∧
        alertRowOK row = true) ∧
    (∀ (db : DB) (tid : Nat) (top : TaskOp), taskInvB db tid = true →
      taskInvB (applyTaskOp db top).2 tid = true) ∧
    (∀ (db : DB) (tid : Nat) (ops : List TaskOp), taskInvB db tid = true →
      taskInvB (runTaskOps db ops) tid = true) := by
  refine ⟨alertInvB_step, ?_, ?_, taskInvB_step, ?_⟩
  · intro db ops
    induction ops generalizing db with
    | nil => intro h; simpa [runAlertOps] using h
    | cons op rest ih =>
      intro h
      simpa [runAlertOps] using ih (applyAlertOp db op).2 (alertInvB_step db op h)
  · intro db op vf hvf hsucc
    obtain ⟨a, a2, row, halert, heq, hprev, hnew, hok⟩ :=
      applyAlertOp_success_shape db op vf hvf hsucc
    exact ⟨a, a2, row, halert, by rw [heq], by rw [heq], hprev, hnew, hok⟩
  · intro db tid ops
    induction ops generalizing db with
    | nil => intro h; simpa [runTaskOps] using h
    | cons op rest ih =>
      intro h
      simpa [runTaskOps] using ih (applyTaskOp db op).2 (taskInvB_step db tid op h)

/-- Witness for the amended C3: a normal alert run and a task run through a
re-claim and a completion keep both invariants. -/
theorem claim3_witness :
    alertInvB exDBopen = true ∧
    alertInvB (runAlertOps exDBopen
      [AlertOp.assign "u1" none, AlertOp.start "u1", AlertOp.hold "u1" none]) = true ∧
    taskInvB exDBtaskPending 1 = true ∧
    taskInvB (runTaskOps exDBtaskPending
      [TaskOp.claim 1 "u1", TaskOp.claim 1 "u1", TaskOp.complete 1 "u1" none]) 1
      = true :=
  ⟨by decide, claim3_amended_audit_trail.2.1 exDBopen _ (by decide), by decide,
   claim3_amended_audit_trail.2.2.2.2 exDBtaskPending 1 _ (by decide)⟩

/-- Claim C6: a successful assign or escalate dispatch runs the task-linkage
resolver on the post-transition store; the resolver creates exactly one new
linked task when the alert has no task in status pending or in progress (for
escalate of type escalation with priority high or critical, for assign of
type investigation with priority mapped from the alert's severity), and when
such an open task exists it updates that task's assignment, priority and
status in place, creating no new task. -/
theorem claim6_task_linkage :
    (∀ (db : DB) (user role : String) (params : Params),
      (assign_alert_activity db (params.assigned_to.getD user)
        params.assigned_by).1.success = true →
      (alertWorkflowRun db "assign" user role params).2 =
        (create_task_from_alert_activity
          (assign_alert_activity db (params.assigned_to.getD user) params.assigned_by).2
          "assign" user { assigned_to := some (params.assigned_to.getD user) }).2 ∧
      (alertWorkflowRun db "assign" user role params).1.task_id =
        (create_task_from_alert_activity
          (assign_alert_activity db (params.assigned_to.getD user) params.assigned_by).2
          "assign" user { assigned_to := some (params.assigned_to.getD user) }).1.task_id) ∧
    (∀ (db : DB) (user role e : String) (params : Params),
      params.escalated_to = some e →
      (escalate_alert_lifecycle_activity db user e
        (params.reason.getD "Escalated")).1.success = true →
      (alertWorkflowRun db "escalate" user role params).2 =
        (create_task_from_alert_activity
          (escalate_alert_lifecycle_activity db user e (params.reason.getD "Escalated")).2
          "escalate" user
          { escalated_to := some e, reason := some (params.reason.getD "Escalated") }).2) ∧
    (∀ (db : DB) (a : Alert) (action user : String) (p : Params),
      db.alert = some a → openTaskFor db = none →
      ∃ newTask,
        (create_task_from_alert_activity db action user p).2.tasks =
          newTask :: db.tasks ∧
        newTask.id = db.nextTaskId ∧
        newTask.alert_id = some db.alertId ∧
        newTask.status = "pending" ∧
        newTask.assigned_to =
          some (((p.assigned_to).orElse (fun _ => p.escalated_to)).getD user) ∧
        (create_task_from_alert_activity db action user p).2.nextTaskId =
          db.nextTaskId + 1 ∧
        (create_task_from_alert_activity db action user p).1.task_action =
          some "created" ∧
        (action = "escalate" → newTask.task_type = "escalation" ∧
          (newTask.priority = "high" ∨ newTask.priority = "critical")) ∧
        (action = "assign" → newTask.task_type = "investigation" ∧
          newTask.priority = severityPriority (strLower (a.severity.getD "medium")))) ∧
    (∀ (db : DB) (a : Alert) (action user : String) (p : Params) (e : Task),
      db.alert = some a → openTaskFor db = some e →
      (create_task_from_alert_activity db action user p).2.tasks =
        db.tasks.map (fun t => if t.id == e.id then
          { t with
            assigned_to :=
              some (((p.assigned_to).orElse (fun _ => p.escalated_to)).getD user)
            assigned_at := some db.now
            priority :=
              if action = "escalate" then
                (if a.severity = some "critical" then "critical" else "high")
              else severityPriority (strLower (a.severity.getD "medium"))
            status := "in_progress" } else t) ∧
      (create_task_from_alert_activity db action user p).2.nextTaskId = db.nextTaskId ∧
      (create_task_from_alert_activity db action user p).1.task_id = some e.id ∧
      (create_task_from_alert_activity db action user p).1.task_action =
        some "updated") := by
  refine ⟨?_, ?_, ?_, ?_⟩
  · intro db user role params hsucc
    constructor <;> simp [alertWorkflowRun, hsucc]
  · intro db user role e params hesc hsucc
    simp [alertWorkflowRun, hesc, hsucc]
  · intro db a action user p halert hopen
    refine ⟨{ id := db.nextTaskId
              customer_id := a.customer_id
              alert_id := some db.alertId
              task_type := if action = "escalate" then "escalation" else "investigation"
              priority :=
                if action = "escalate" then
                  (if a.severity = some "critical" then "critical" else "high")
                else severityPriority (strLower (a.severity.getD "medium"))
              status := "pending"
              assigned_to :=
                some (((p.assigned_to).orElse (fun _ => p.escalated_to)).getD user)
              assigned_at := some db.now
              title :=
                (if action = "escalate" then "Escalation: " else "Investigate: ") ++
                  (a.scenario.getD "Unknown")
              description :=
                if action = "escalate" then
                  "Escalated alert review: " ++ (p.reason.getD "Escalated for senior review")
                else "Alert investigation for " ++ (a.customer_name.getD "Unknown customer")
              created_by := some SYSTEM_USER_ID
              created_at := db.now },
      ?_, rfl, rfl, rfl, rfl, ?_, ?_, ?_, ?_⟩
    · by_cases hact : action = "escalate" <;>
        simp [create_task_from_alert_activity, halert, hopen, hact]
    · simp [create_task_from_alert_activity, halert, hopen]
    · simp [create_task_from_alert_activity, halert, hopen]
    · intro hact
      refine ⟨by simp [hact], ?_⟩
      by_cases hsev : a.severity = some "critical" <;> simp [hact, hsev]
    · intro hact
      have hne : ¬ action = "escalate" := by simp [hact]
      exact ⟨by simp [hne], by simp [hne]⟩
  · intro db a action user p e halert hopen
    refine ⟨?_, ?_, ?_, ?_⟩ <;>
      simp [create_task_from_alert_activity, halert, hopen, updateTaskRow]

/-- Witness for C6: on the open store with no tasks, the resolver invoked for
an assign creates exactly one investigation task linked to the alert. -/
theorem claim6_witness :
    exDBopen.alert = some exAlertOpen ∧ openTaskFor exDBopen = none ∧
    (∃ newTask,
      (create_task_from_alert_activity exDBopen "assign" "u1"
        { assigned_to := some "u1" }).2.tasks = newTask :: exDBopen.tasks ∧
      newTask.alert_id = some exDBopen.alertId ∧
      newTask.task_type = "investigation" ∧
      (create_task_from_alert_activity exDBopen "assign" "u1"
        { assigned_to := some "u1" }).1.task_action = some "created") :=
  ⟨rfl, rfl, by
    obtain ⟨nt, h1, _, h3, _, _, _, h7, _, hass⟩ :=
      claim6_task_linkage.2.2.1 exDBopen exAlertOpen "assign" "u1"
        { assigned_to := some "u1" } rfl rfl
    exact ⟨nt, h1, h3, (hass rfl).1, h7⟩⟩

end AML
